import Mathlib

/-!
# Verification of the solarpunk background generator

A shallow embedding, over `ℚ`, of `src/assets/generate_solarpunk_bg.py`
(the procedural image pipeline) and `src/write_pivx_module.py` (the
wallet-integration stub writer) of the janus-monitor repository.

The script drives Cairo through a fixed sequence of drawing calls; the
embedding reifies every drawing call as a `CtxOp` value and every stage of
the pipeline as a function producing the list of ops it emits, threading an
explicit index into a seeded random stream exactly in the order the script
consumes `random.uniform` / `random.random` / `random.choice` draws.
Transcendental float functions of the Python `math` module (`sin`, `cos`,
`pi`) are abstracted as an `Env` of rational-valued parameters: no claim
below depends on their values, only on which arguments they receive.
-/

namespace Solarpunk

/-- An RGBA color with rational channels (the script works with 0–1 floats). -/
structure Col where
  r : ℚ
  g : ℚ
  b : ℚ
  a : ℚ
deriving DecidableEq, Repr

/-- A value in the unit interval: one draw of the random stream.  Python's
`random.random`-derived draws always lie in `[0, 1]`. -/
def UnitQ : Type := {q : ℚ // 0 ≤ q ∧ q ≤ 1}

instance : DecidableEq UnitQ := fun a b =>
  decidable_of_iff (a.val = b.val) Subtype.ext_iff.symm

/-- The random source: an infinite stream of unit-interval draws.  The script
uses the global `random` module seeded once with `random.seed(42)`; each call
to `uniform` / `random` / `choice` consumes the next draw in program order. -/
def Rng : Type := Nat → UnitQ

/-- `random.uniform(lo, hi)` realized from one unit draw. -/
def uniform (lo hi : ℚ) (u : UnitQ) : ℚ := lo + (hi - lo) * u.val

lemma uniform_le {lo hi : ℚ} (h : lo ≤ hi) (u : UnitQ) : uniform lo hi u ≤ hi := by
  have h0 := u.property.1
  have h1 := u.property.2
  have : (hi - lo) * u.val ≤ (hi - lo) * 1 := by
    apply mul_le_mul_of_nonneg_left h1 (by linarith)
  simp only [uniform]
  nlinarith

lemma le_uniform {lo hi : ℚ} (h : lo ≤ hi) (u : UnitQ) : lo ≤ uniform lo hi u := by
  have h0 := u.property.1
  have : 0 ≤ (hi - lo) * u.val := mul_nonneg (by linarith) h0
  simp only [uniform]
  linarith

/-- Python `int()` truncation toward zero. -/
def pyInt (q : ℚ) : Int := if 0 ≤ q then ⌊q⌋ else -⌊-q⌋

/-- Python `range(a, b, s)` for a positive step `s`: the integers
`a, a + s, a + 2s, …` strictly below `b`. -/
def pyRange (a b s : Int) : List Int :=
  (List.range (Int.toNat ⌈((b - a : ℚ)) / (s : ℚ)⌉)).map (fun (k : ℕ) => a + (k : Int) * s)

/-- The `while x < stop: … ; x += step` sampling pattern over rationals, for a
positive step: the samples `start, start + step, …` strictly below `stop`. -/
def qRange (start stop step : ℚ) : List ℚ :=
  (List.range (Int.toNat ⌈(stop - start) / step⌉)).map (fun (k : ℕ) => start + (k : ℚ) * step)

/-- One Cairo drawing call, as issued by the script. -/
inductive CtxOp where
  | save
  | restore
  | translate (x y : ℚ)
  | rotate (a : ℚ)
  | moveTo (x y : ℚ)
  | lineTo (x y : ℚ)
  | curveTo (x1 y1 x2 y2 x3 y3 : ℚ)
  | arc (cx cy r a1 a2 : ℚ)
  | rect (x y w h : ℚ)
  | closePath
  | setSourceRgba (r g b a : ℚ)
  | setLinear (x0 y0 x1 y1 : ℚ) (stops : List (ℚ × Col))
  | setRadial (x0 y0 r0 x1 y1 r1 : ℚ) (stops : List (ℚ × Col))
  | setLineWidth (w : ℚ)
  | setLineCapRound
  | stroke
  | fill
  | fillPreserve
  | paint
deriving DecidableEq, Repr

/-- The script's `rgb(r, g, b, a)` helper: channels given on a 0–255 scale. -/
def rgbOp (r g b a : ℚ) : CtxOp := .setSourceRgba (r / 255) (g / 255) (b / 255) a

/-- Abstracted Python `math` module: `pi`, `sin`, `cos` as parameters. -/
structure Env where
  pi : ℚ
  sin : ℚ → ℚ
  cos : ℚ → ℚ

/-- Sequence a per-item emitter over a list, threading the random-stream
index left to right (the order the Python loops consume draws). -/
def seqCells {α : Type} (f : α → Nat → List CtxOp × Nat) : List α → Nat → List CtxOp × Nat
  | [], i => ([], i)
  | a :: as, i =>
    let p := f a i
    let q := seqCells f as p.2
    (p.1 ++ q.1, q.2)

/-! ## Stage 1: sky gradient (lines 23–31; no random draws) -/

/-- The six fixed color stops of the sky gradient. -/
def skyStops : List (ℚ × Col) :=
  [(0, ⟨0.97, 0.96, 0.88, 1⟩),
   (0.12, ⟨0.96, 0.95, 0.86, 1⟩),
   (0.30, ⟨0.93, 0.95, 0.85, 1⟩),
   (0.50, ⟨0.88, 0.93, 0.82, 1⟩),
   (0.70, ⟨0.82, 0.90, 0.76, 1⟩),
   (1, ⟨0.72, 0.84, 0.65, 1⟩)]

/-- Ops of the sky stage: one full-canvas paint with the linear gradient
`LinearGradient(0, 0, 0, H)` carrying `skyStops`. -/
def skyOps (h : ℚ) : List CtxOp := [.setLinear 0 0 0 h skyStops, .paint]

/-! ## Stage 2: sun glow, rays, core (lines 36–74; one draw per ray) -/

def sunX (w : ℚ) : ℚ := w * 0.82
def sunY (h : ℚ) : ℚ := h * 0.08

/-- Stops of the `i`-th glow disc (`alpha = 0.03 + i * 0.008`). -/
def glowStops (alpha : ℚ) : List (ℚ × Col) :=
  [(0, ⟨1, 0.92, 0.5, alpha * 2.5⟩),
   (0.4, ⟨1, 0.88, 0.4, alpha * 1.5⟩),
   (1, ⟨1, 0.85, 0.3, 0⟩)]

/-- The eight radial glow paints (no random draws). -/
def sunGlowOps (w h : ℚ) : List CtxOp :=
  ((List.range 8).map (fun (i : ℕ) =>
    [CtxOp.setRadial (sunX w) (sunY h) 0 (sunX w) (sunY h) (500 - (i : ℚ) * 30)
       (glowStops (0.03 + (i : ℚ) * 0.008)),
     CtxOp.paint])).flatten

/-- Length of ray `i`: `350 + random.uniform(-80, 120)`, the one draw this
ray consumes (stream position `i0 + i`). -/
def rayLength (rng : Rng) (i0 i : Nat) : ℚ := 350 + uniform (-80) 120 (rng (i0 + i))

/-- Opacity of ray `i`: `0.14 if i % 3 == 0 else 0.08` — a deterministic
function of the loop index, no random draw. -/
def rayAlphaVal (i : Nat) : ℚ := if i % 3 = 0 then 0.14 else 0.08

/-- Line width of ray `i`: `1.5 if i % 3 == 0 else 0.6`. -/
def rayWidthVal (i : Nat) : ℚ := if i % 3 = 0 then 1.5 else 0.6

/-- Ops of ray `i` (lines 48–59): a save/translate/rotate scope around one
stroked segment. -/
def rayOps (env : Env) (w h : ℚ) (rng : Rng) (i0 i : Nat) : List CtxOp :=
  [.save,
   .translate (sunX w) (sunY h),
   .rotate ((i : ℚ) * (2 * env.pi / 24) + 0.13),
   .moveTo 40 0,
   .lineTo (rayLength rng i0 i) 0,
   rgbOp 218 180 40 (rayAlphaVal i),
   .setLineWidth (rayWidthVal i),
   .stroke,
   .restore]

/-- The 24-ray loop; consumes 24 draws. -/
def sunRaysOps (env : Env) (w h : ℚ) (rng : Rng) (i0 : Nat) : List CtxOp × Nat :=
  (((List.range 24).map (rayOps env w h rng i0)).flatten, i0 + 24)

/-- Stops of the sun-core radial gradient. -/
def coreStops : List (ℚ × Col) :=
  [(0, ⟨1, 0.98, 0.88, 0.9⟩),
   (0.3, ⟨1, 0.92, 0.55, 0.7⟩),
   (0.6, ⟨0.92, 0.78, 0.25, 0.5⟩),
   (0.85, ⟨0.48, 0.78, 0.30, 0.3⟩),
   (1, ⟨0.24, 0.54, 0.16, 0.15⟩)]

/-- Sun core disc plus thin stroked rim (lines 62–74; no draws). -/
def sunCoreOps (env : Env) (w h : ℚ) : List CtxOp :=
  [.setRadial (sunX w - 8) (sunY h - 8) 0 (sunX w) (sunY h) 55 coreStops,
   .arc (sunX w) (sunY h) 55 0 (2 * env.pi),
   .fill,
   .setLineWidth 1.2,
   rgbOp 255 248 200 0.4,
   .arc (sunX w) (sunY h) 56 0 (2 * env.pi),
   .stroke]

/-! ## Stage 3a: skyline building generation (lines 87–107) -/

/-- The six building variants of the script. -/
inductive BType where
  | tower
  | dome
  | spire
  | antenna
  | block
  | megablock
deriving DecidableEq, Repr

/-- One generated building: `(x, bw, bh, btype)` in the script. -/
structure Building where
  x : ℚ
  bw : ℚ
  bh : ℚ
  btype : BType
deriving DecidableEq, Repr

instance : Inhabited Building := ⟨⟨0, 0, 0, .tower⟩⟩

/-- `random.choice(['tower','tower','tower','dome','spire','block','antenna','megablock'])`:
one draw selects an index below 8 (weighted toward tower by repetition). -/
def chooseBType (u : UnitQ) : BType :=
  match min 7 (Int.toNat ⌊u.val * 8⌋) with
  | 0 => .tower
  | 1 => .tower
  | 2 => .tower
  | 3 => .dome
  | 4 => .spire
  | 5 => .block
  | 6 => .antenna
  | _ => .megablock

/-- Width draw: `uniform(18, 55)` except `uniform(60, 110)` for megablocks. -/
def bwFor (bt : BType) (u : UnitQ) : ℚ :=
  if bt = .megablock then uniform 60 110 u else uniform 18 55 u

/-- Height draw, per variant (lines 93–104). -/
def bhFor (bt : BType) (u : UnitQ) : ℚ :=
  match bt with
  | .tower => uniform 80 240 u
  | .dome => uniform 50 120 u
  | .spire => uniform 150 320 u
  | .antenna => uniform 180 350 u
  | .megablock => uniform 60 160 u
  | .block => uniform 40 100 u

lemma bwFor_ge (bt : BType) (u : UnitQ) : 18 ≤ bwFor bt u := by
  unfold bwFor
  split
  · exact le_trans (by norm_num) (le_uniform (by norm_num) u)
  · exact le_uniform (by norm_num) u

lemma bwFor_le (bt : BType) (u : UnitQ) : bwFor bt u ≤ 110 := by
  unfold bwFor
  split
  · exact uniform_le (by norm_num) u
  · exact le_trans (uniform_le (by norm_num) u) (by norm_num)

lemma advance_ge (bt : BType) (u v : UnitQ) : 9 ≤ bwFor bt u * uniform 0.5 1.1 v := by
  have h1 := bwFor_ge bt u
  have h2 := @le_uniform 0.5 1.1 (by norm_num) v
  nlinarith

lemma ceil_step_lt {w x adv : ℚ} (hx : x < w + 20) (hadv : 9 ≤ adv) :
    (⌈w + 20 - (x + adv)⌉).toNat < (⌈w + 20 - x⌉).toNat := by
  have h1 : (0 : ℚ) < w + 20 - x := by linarith
  have h2 : (0 : ℤ) < ⌈w + 20 - x⌉ := Int.ceil_pos.mpr h1
  rw [Int.toNat_lt_toNat h2]
  have h3 : ⌈w + 20 - (x + adv)⌉ ≤ ⌈w + 20 - x - (9 : ℤ)⌉ := by
    apply Int.ceil_mono
    push_cast
    linarith
  rw [Int.ceil_sub_int] at h3
  omega

/-- The building-generation while loop (lines 88–107): starting from
`x = -20`, append one building per iteration and advance the cursor by
`bw * uniform(0.5, 1.1)` until `x` reaches `W + 20`.  Each iteration
consumes four draws (choice, width, height, advance factor).  Returns the
building list, the final cursor, and the next stream index. -/
def genFrom (w : ℚ) (rng : Rng) (x : ℚ) (i : Nat) : List Building × ℚ × Nat :=
  if h : x < w + 20 then
    let bt := chooseBType (rng i)
    let bw := bwFor bt (rng (i + 1))
    let bh := bhFor bt (rng (i + 2))
    let p := genFrom w rng (x + bw * uniform 0.5 1.1 (rng (i + 3))) (i + 4)
    (⟨x, bw, bh, bt⟩ :: p.1, p.2)
  else ([], x, i)
termination_by (⌈w + 20 - x⌉).toNat
decreasing_by exact ceil_step_lt h (advance_ge _ _ _)

/-- The whole stage: the script starts the cursor at `x = -20`. -/
def genBuildings (w : ℚ) (rng : Rng) (i : Nat) : List Building × ℚ × Nat :=
  genFrom w rng (-20) i

/-! ## Stage 3b: drawing the city silhouette (`draw_city_silhouette`, lines 109–259)

The script draws the skyline onto a separate surface `city_surface` through
the context `cctx`; these definitions produce the list of ops issued to that
context.  `am`, `ox`, `oy` are the `alpha_mult`, `offset_x`, `offset_y`
parameters (the only call passes `1, 0, 0`). -/

/-- City silhouette color `cr, cg, cb = 0.18, 0.20, 0.28`. -/
def cityR : ℚ := 0.18
def cityG : ℚ := 0.20
def cityB : ℚ := 0.28

/-- `horizon_y = H * 0.50`. -/
def horizonY (h : ℚ) : ℚ := h * 0.50

/-- The four-color warm window palette of towers (lines 146–151):
one draw selects an index below 4. -/
def palette4 (u : UnitQ) : ℚ × ℚ × ℚ :=
  match min 3 (Int.toNat ⌊u.val * 4⌋) with
  | 0 => (0.85, 0.75, 0.35)
  | 1 => (0.50, 0.70, 0.90)
  | 2 => (0.75, 0.50, 0.85)
  | _ => (0.30, 0.80, 0.60)

/-- The three-color megablock facade palette (lines 247–251). -/
def palette3 (u : UnitQ) : ℚ × ℚ × ℚ :=
  match min 2 (Int.toNat ⌊u.val * 3⌋) with
  | 0 => (0.85, 0.78, 0.40)
  | 1 => (0.45, 0.65, 0.90)
  | _ => (0.70, 0.45, 0.80)

/-- Row-major cell traversal of the nested `for wy: for wx:` window loops. -/
def windowCells (wys wxs : List Int) : List (Int × Int) :=
  (wys.map (fun wy => wxs.map (fun wx => (wx, wy)))).flatten

/-- One tower window cell (lines 142–154): a coin flip `random() > 0.4`,
and if lit one palette choice plus a 3×5 rectangle. -/
def towerWindowCell (am : ℚ) (rng : Rng) (cell : Int × Int) (i : Nat) :
    List CtxOp × Nat :=
  if (rng i).val > 0.4 then
    let c := palette4 (rng (i + 1))
    ([.setSourceRgba c.1 c.2.1 c.2.2 (0.06 * am), .rect (cell.1 : ℚ) (cell.2 : ℚ) 3 5, .fill],
     i + 2)
  else ([], i + 1)

/-- One megablock facade cell (lines 244–254): coin flip `random() > 0.35`,
palette choice, 4×6 rectangle. -/
def megaWindowCell (am : ℚ) (rng : Rng) (cell : Int × Int) (i : Nat) :
    List CtxOp × Nat :=
  if (rng i).val > 0.35 then
    let c := palette3 (rng (i + 1))
    ([.setSourceRgba c.1 c.2.1 c.2.2 (0.04 * am), .rect (cell.1 : ℚ) (cell.2 : ℚ) 4 6, .fill],
     i + 2)
  else ([], i + 1)

/-- Ops of one building, by variant; returns the next stream index.
`bx2`, `by0`, `a` are the script's `bx2`, `by`, `a`. -/
def buildingOps (env : Env) (h am ox oy : ℚ) (rng : Rng) (b : Building) (i : Nat) :
    List CtxOp × Nat :=
  let bx2 := b.x + ox
  let by0 := horizonY h + oy
  let bw := b.bw
  let bh := b.bh
  let a := 0.22 * am
  match b.btype with
  | .tower =>
    -- taper draw, body, roof coin flip, then window cells
    let taper := uniform 0.85 0.98 (rng i)
    let body : List CtxOp :=
      [.moveTo bx2 by0, .lineTo bx2 (by0 - bh), .lineTo (bx2 + bw * taper) (by0 - bh),
       .lineTo (bx2 + bw) by0, .closePath, .setSourceRgba cityR cityG cityB a, .fill]
    let roof : List CtxOp :=
      if (rng (i + 1)).val > 0.5 then
        [.moveTo (bx2 + bw * 0.45) (by0 - bh), .lineTo (bx2 + bw * 0.48) (by0 - bh - 20),
         .lineTo (bx2 + bw * 0.52) (by0 - bh - 20), .lineTo (bx2 + bw * 0.55) (by0 - bh),
         .closePath, .setSourceRgba cityR cityG cityB (a * 0.9), .fill]
      else []
    let cells := windowCells
      (pyRange (pyInt (by0 - bh + 15)) (pyInt (by0 - 10)) 14)
      (pyRange (pyInt (bx2 + 4)) (pyInt (bx2 + bw - 4)) 8)
    let p := seqCells (towerWindowCell am rng) cells (i + 2)
    (body ++ roof ++ p.1, p.2)
  | .dome =>
    -- no draws: body with Bezier cap, then three ribs
    let body : List CtxOp :=
      [.moveTo bx2 by0, .lineTo bx2 (by0 - bh * 0.5),
       .curveTo bx2 (by0 - bh) (bx2 + bw) (by0 - bh) (bx2 + bw) (by0 - bh * 0.5),
       .lineTo (bx2 + bw) by0, .closePath, .setSourceRgba cityR cityG cityB a, .fill]
    let ribs : List CtxOp :=
      ((List.range 3).map (fun (ri : ℕ) =>
        let rx := bx2 + bw * (0.25 + (ri : ℚ) * 0.25)
        let ribH := bh * (if ri = 1 then 0.85 else 0.7)
        [CtxOp.moveTo rx by0, CtxOp.lineTo rx (by0 - ribH),
         CtxOp.setSourceRgba (cityR * 0.7) (cityG * 0.7) (cityB * 0.7) (0.08 * am),
         CtxOp.setLineWidth 0.8, CtxOp.stroke])).flatten
    (body ++ ribs, i)
  | .spire =>
    -- no draws: star-like silhouette plus a tip light
    ([.moveTo bx2 by0, .lineTo (bx2 + bw * 0.15) (by0 - bh * 0.6),
      .lineTo (bx2 + bw * 0.35) (by0 - bh * 0.65), .lineTo (bx2 + bw * 0.5) (by0 - bh),
      .lineTo (bx2 + bw * 0.65) (by0 - bh * 0.65), .lineTo (bx2 + bw * 0.85) (by0 - bh * 0.6),
      .lineTo (bx2 + bw) by0, .closePath, .setSourceRgba cityR cityG cityB a, .fill,
      .arc (bx2 + bw * 0.5) (by0 - bh) 2 0 (2 * env.pi),
      .setSourceRgba 0.80 0.40 0.40 (0.12 * am), .fill], i)
  | .antenna =>
    -- one draw for the dish height
    let mid := bx2 + bw * 0.5
    let body : List CtxOp :=
      [.moveTo (mid - 3) by0, .lineTo (mid - 1.5) (by0 - bh), .lineTo (mid + 1.5) (by0 - bh),
       .lineTo (mid + 3) by0, .closePath, .setSourceRgba cityR cityG cityB (a * 0.8), .fill]
    let braces : List CtxOp :=
      ((pyRange (pyInt (by0 - bh + 30)) (pyInt (by0 - 10)) 35).map (fun (cby : Int) =>
        [CtxOp.moveTo (mid - 3) (cby : ℚ), CtxOp.lineTo (mid + 3) (cby : ℚ),
         CtxOp.setSourceRgba cityR cityG cityB (0.12 * am),
         CtxOp.setLineWidth 0.6, CtxOp.stroke])).flatten
    let dishY := by0 - bh * uniform 0.55 0.75 (rng i)
    let dish : List CtxOp :=
      [.arc (mid + 8) dishY 8 (env.pi * 0.3) (env.pi * 1.3),
       .setSourceRgba cityR cityG cityB (0.15 * am), .setLineWidth 1.5, .stroke]
    let topLight : List CtxOp :=
      [.arc mid (by0 - bh) 2.5 0 (2 * env.pi),
       .setSourceRgba 0.9 0.3 0.3 (0.15 * am), .fill]
    (body ++ braces ++ dish ++ topLight, i + 1)
  | .megablock =>
    -- body, three terraces, then facade window cells
    let body : List CtxOp :=
      [.rect bx2 (by0 - bh) bw bh, .setSourceRgba cityR cityG cityB (a * 0.9), .fill]
    let terraces : List CtxOp :=
      ((List.range 3).map (fun (ti : ℕ) =>
        let terraceH := bh * (0.3 + (ti : ℚ) * 0.2)
        let setback := bw * 0.08 * ((ti : ℚ) + 1)
        [CtxOp.moveTo (bx2 + setback) (by0 - terraceH),
         CtxOp.lineTo (bx2 + bw - setback) (by0 - terraceH),
         CtxOp.setSourceRgba (cityR * 0.8) (cityG * 0.8) (cityB * 0.8) (0.06 * am),
         CtxOp.setLineWidth 1, CtxOp.stroke])).flatten
    let cells := windowCells
      (pyRange (pyInt (by0 - bh + 10)) (pyInt (by0 - 5)) 12)
      (pyRange (pyInt (bx2 + 5)) (pyInt (bx2 + bw - 5)) 10)
    let p := seqCells (megaWindowCell am rng) cells i
    (body ++ terraces ++ p.1, p.2)
  | .block =>
    ([.rect bx2 (by0 - bh) bw bh, .setSourceRgba cityR cityG cityB (a * 0.85), .fill], i)

/-- The full `draw_city_silhouette(cctx, alpha_mult=1.0)` call: ops issued to
the intermediate city surface, one building at a time. -/
def cityOps (env : Env) (h am ox oy : ℚ) (blds : List Building) (rng : Rng) (i : Nat) :
    List CtxOp × Nat :=
  seqCells (buildingOps env h am ox oy rng) blds i

/-! ## Stage 3c: atmospheric haze (lines 289–296; no draws) -/

def hazeStops : List (ℚ × Col) :=
  [(0, ⟨0.92, 0.94, 0.86, 0.5⟩),
   (0.4, ⟨0.90, 0.93, 0.84, 0.35⟩),
   (0.7, ⟨0.88, 0.92, 0.82, 0.2⟩),
   (1, ⟨0.85, 0.91, 0.80, 0⟩)]

def hazeOps (w h : ℚ) : List CtxOp :=
  [.setLinear 0 (horizonY h - 350) 0 (horizonY h + 40) hazeStops,
   .rect 0 (horizonY h - 350) w 400, .fill]

/-! ## Stage 4: rolling hills (lines 301–319; one draw per 3-px sample) -/

lemma ceil_step3_lt {w x : ℚ} (hx : x < w + 50) :
    (⌈(w + 50 - (x + 3)) / 3⌉).toNat < (⌈(w + 50 - x) / 3⌉).toNat := by
  have h1 : (0 : ℚ) < (w + 50 - x) / 3 := div_pos (by linarith) (by norm_num)
  have h2 : (0 : ℤ) < ⌈(w + 50 - x) / 3⌉ := Int.ceil_pos.mpr h1
  rw [Int.toNat_lt_toNat h2]
  have h3 : (w + 50 - (x + 3)) / 3 = (w + 50 - x) / 3 - 1 := by ring
  rw [h3, Int.ceil_sub_one]
  omega

/-- The per-hill silhouette loop (lines 310–314): `while x < W + 50`, one
fresh `random.uniform(0, 1)` phase draw per sample, then
`cy = base + sin(x*0.003 + phase)*35 + sin(x*0.008)*18` and a `line_to`. -/
def hillLoop (env : Env) (w base : ℚ) (rng : Rng) (x : ℚ) (i : Nat) : List CtxOp × Nat :=
  if h : x < w + 50 then
    let phase := uniform 0 1 (rng i)
    let cy := base + env.sin (x * 0.003 + phase) * 35 + env.sin (x * 0.008) * 18
    let p := hillLoop env w base rng (x + 3) (i + 1)
    (CtxOp.lineTo x cy :: p.1, p.2)
  else ([], i)
termination_by (⌈(w + 50 - x) / 3⌉).toNat
decreasing_by exact ceil_step3_lt h

/-- The four hill records `(base_y, alpha, (r, g, b))` of lines 301–306. -/
def hillsData (h : ℚ) : List (ℚ × ℚ × ℚ × ℚ × ℚ) :=
  [(h * 0.58, 0.14, 0.58, 0.74, 0.48),
   (h * 0.64, 0.18, 0.48, 0.68, 0.40),
   (h * 0.70, 0.24, 0.38, 0.60, 0.32),
   (h * 0.78, 0.30, 0.30, 0.52, 0.26)]

/-- One hill region: `move_to(0, base + 40)`, the silhouette samples, close
down to the bottom corners, fill with the hill's color and alpha. -/
def hillOps (env : Env) (w hgt : ℚ) (rng : Rng) (hill : ℚ × ℚ × ℚ × ℚ × ℚ) (i : Nat) :
    List CtxOp × Nat :=
  let p := hillLoop env w hill.1 rng 0 i
  (CtxOp.moveTo 0 (hill.1 + 40) :: p.1 ++
    [.lineTo w hgt, .lineTo 0 hgt, .closePath,
     .setSourceRgba hill.2.2.1 hill.2.2.2.1 hill.2.2.2.2 hill.2.1, .fill], p.2)

/-- All four hills, back to front. -/
def hillsOps (env : Env) (w hgt : ℚ) (rng : Rng) (i : Nat) : List CtxOp × Nat :=
  seqCells (hillOps env w hgt rng) (hillsData hgt) i

/-! ## Stage 5: Art Nouveau vine borders (`draw_vine`, lines 324–394) -/

/-- The sinusoidal horizontal offset of a vine at height `y`
(line 328–330), mirrored for the right side. -/
def vineOffset (env : Env) (y : ℚ) (right : Bool) : ℚ :=
  let off := env.sin (y * 0.008) * 25 + env.sin (y * 0.02) * 12
  if right then -off else off

/-- The sampled point sequence of `draw_vine` (lines 325–332): `y` from
`y_start` by 3 while `y < y_end`; no random draws. -/
def vinePoints (env : Env) (xBase yStart yEnd : ℚ) (right : Bool) : List (ℚ × ℚ) :=
  (qRange yStart yEnd 3).map (fun y => (xBase + vineOffset env y right, y))

/-- The main smoothed stroke through the points (lines 337–345). -/
def vineMain (pts : List (ℚ × ℚ)) (thickness : ℚ) : List CtxOp :=
  [.setLineWidth thickness, .setLineCapRound, rgbOp 42 100 35 0.55,
   .moveTo (pts.getD 0 (0, 0)).1 (pts.getD 0 (0, 0)).2] ++
  ((pyRange 1 ((pts.length : Int) - 1) 2).map (fun (i : Int) =>
    if i + 1 < (pts.length : Int) then
      let pa := pts.getD i.toNat (0, 0)
      let pb := pts.getD (i + 1).toNat (0, 0)
      [CtxOp.curveTo pa.1 pa.2 pa.1 pa.2 pb.1 pb.2]
    else [])).flatten ++ [.stroke]

/-- The secondary thinner tendril strokes (lines 347–357). -/
def vineTendril (pts : List (ℚ × ℚ)) (thickness : ℚ) (right : Bool) : List CtxOp :=
  let dir : ℚ := if right then -1 else 1
  let ox : ℚ := if right then -8 else 8
  [.setLineWidth (thickness * 0.5), rgbOp 58 120 42 0.35] ++
  ((pyRange 0 ((pts.length : Int) - 4) 3).map (fun (i : Int) =>
    let pa := pts.getD i.toNat (0, 0)
    let j := min (i + 4) ((pts.length : Int) - 1)
    let pb := pts.getD j.toNat (0, 0)
    [CtxOp.moveTo (pa.1 + ox) pa.2,
     CtxOp.curveTo (pa.1 + ox + 15 * dir) (pa.2 + 20)
       (pb.1 + ox + 10 * dir) (pb.2 - 15) (pb.1 + ox) pb.2,
     CtxOp.stroke])).flatten

/-- One leaf stamp (lines 359–377): a save/translate/rotate scope; two draws
(`leaf_size`, then the green jitter `gv`). -/
def leafStamp (env : Env) (right : Bool) (pts : List (ℚ × ℚ)) (rng : Rng)
    (iIdx : Int) (i : Nat) : List CtxOp × Nat :=
  let p := pts.getD iIdx.toNat (0, 0)
  let leafAngle := env.sin ((iIdx : ℚ) * 0.1) * 0.5 + (if right then 2.8 else 0.3)
  let leafSize := 14 + uniform (-3) 6 (rng i)
  let gv := uniform 0.85 1.15 (rng (i + 1))
  ([.save, .translate p.1 p.2, .rotate leafAngle, .moveTo 0 0,
    .curveTo (leafSize * 0.4) (-leafSize * 0.35) (leafSize * 0.8) (-leafSize * 0.15) leafSize 0,
    .curveTo (leafSize * 0.8) (leafSize * 0.15) (leafSize * 0.4) (leafSize * 0.35) 0 0,
    .setSourceRgba (0.22 * gv) (0.50 * gv) (0.18 * gv) 0.35, .fill,
    .moveTo 0 0, .lineTo (leafSize * 0.9) 0, rgbOp 35 80 28 0.2, .setLineWidth 0.5, .stroke,
    .restore], i + 2)

/-- The periodic leaf stamps every 18 samples (line 359). -/
def vineLeaves (env : Env) (right : Bool) (pts : List (ℚ × ℚ)) (rng : Rng) (i : Nat) :
    List CtxOp × Nat :=
  seqCells (leafStamp env right pts rng) (pyRange 0 ((pts.length : Int) - 1) 18) i

/-- One decorative spiral curl (lines 379–389; no draws, no save). -/
def vineCurl (env : Env) (right : Bool) (pts : List (ℚ × ℚ)) (iIdx : Int) : List CtxOp :=
  let p := pts.getD iIdx.toNat (0, 0)
  let dir : ℚ := if right then -1 else 1
  [.setLineWidth 0.8, rgbOp 58 110 40 0.25, .moveTo p.1 p.2] ++
  ((List.range 30).map (fun (t : ℕ) =>
    let ang := (t : ℚ) * 0.25
    let r := (t : ℚ) * 0.6
    CtxOp.lineTo (p.1 + dir * (r * env.cos ang + 8)) (p.2 - r * env.sin ang - 5))) ++
  [.stroke]

/-- The curls every 35 samples. -/
def vineCurls (env : Env) (right : Bool) (pts : List (ℚ × ℚ)) : List CtxOp :=
  ((pyRange 0 ((pts.length : Int) - 1) 35).map (vineCurl env right pts)).flatten

/-- The whole `draw_vine(x_base, y_start, y_end, side, thickness)` call:
if fewer than two sample points exist, the function returns before issuing
any drawing op (lines 334–335). -/
def vineOps (env : Env) (xBase yStart yEnd : ℚ) (right : Bool) (thickness : ℚ)
    (rng : Rng) (i : Nat) : List CtxOp × Nat :=
  let pts := vinePoints env xBase yStart yEnd right
  if pts.length < 2 then ([], i)
  else
    let p := vineLeaves env right pts rng i
    (vineMain pts thickness ++ vineTendril pts thickness right ++ p.1 ++
      vineCurls env right pts, p.2)

/-- The four border vines (lines 391–394), in call order. -/
def vinesOps (env : Env) (w h : ℚ) (rng : Rng) (i : Nat) : List CtxOp × Nat :=
  let p1 := vineOps env 25 50 (h - 50) false 3 rng i
  let p2 := vineOps env 15 200 (h - 100) false 1.8 rng p1.2
  let p3 := vineOps env (w - 25) 80 (h - 50) true 3 rng p2.2
  let p4 := vineOps env (w - 15) 250 (h - 100) true 1.8 rng p3.2
  (p1.1 ++ p2.1 ++ p3.1 ++ p4.1, p4.2)

/-! ## Stage 6: fern carpet (lines 399–422; five draws per fern) -/

/-- The frond strokes of one fern (lines 413–421), branching alternately. -/
def fernFronds (fernH g : ℚ) : List CtxOp :=
  ((List.range (Int.toNat (pyInt (fernH / 8)))).map (fun (j2 : ℕ) =>
    let fy := -(j2 : ℚ) * 8
    let frondLen := (fernH - (j2 : ℚ) * 8) * 0.4
    let side : ℚ := if j2 % 2 = 0 then 1 else -1
    [CtxOp.setSourceRgba 0.18 (g * 1.1) 0.15 0.22, CtxOp.setLineWidth 0.6,
     CtxOp.moveTo 0 fy,
     CtxOp.curveTo (side * frondLen * 0.5) (fy - 3) (side * frondLen) (fy - 1)
       (side * frondLen) (fy + 2),
     CtxOp.stroke])).flatten

/-- One fern instance: position, height, lean and green draws, a curved stem
stroke, then alternating fronds, all inside a save/translate/rotate scope. -/
def fernOps (_env : Env) (w h : ℚ) (rng : Rng) (_j : Nat) (i : Nat) : List CtxOp × Nat :=
  let bx := uniform (-20) (w + 20) (rng i)
  let by0 := h - uniform 10 120 (rng (i + 1))
  let fernH := uniform 30 80 (rng (i + 2))
  let lean := uniform (-0.3) 0.3 (rng (i + 3))
  let g := uniform 0.3 0.55 (rng (i + 4))
  ([.save, .translate bx by0, .rotate lean,
    .setSourceRgba 0.15 g 0.12 0.3, .setLineWidth 1.2, .moveTo 0 0,
    .curveTo 3 (-fernH * 0.3) (-2) (-fernH * 0.6) 1 (-fernH), .stroke] ++
   fernFronds fernH g ++
   [.restore], i + 5)

/-- The sixty ferns. -/
def fernsOps (env : Env) (w h : ℚ) (rng : Rng) (i : Nat) : List CtxOp × Nat :=
  seqCells (fernOps env w h rng) (List.range 60) i

/-! ## Ground-darkening gradient (lines 424–430; no draws) -/

def groundStops : List (ℚ × Col) :=
  [(0, ⟨0.25, 0.48, 0.22, 0⟩),
   (0.5, ⟨0.22, 0.42, 0.18, 0.15⟩),
   (1, ⟨0.18, 0.38, 0.15, 0.3⟩)]

def groundOps (w h : ℚ) : List CtxOp :=
  [.setLinear 0 (h - 80) 0 h groundStops, .rect 0 (h - 80) w 80, .fill]

/-! ## Stage 7: stained-glass solar panels (lines 435–488; no draws) -/

/-- The five fixed panel placements `(px, py, size, rot)`. -/
def panelsData (w h : ℚ) : List (ℚ × ℚ × ℚ × ℚ) :=
  [(w * 0.15, h * 0.18, 65, -0.15),
   (w * 0.38, h * 0.12, 50, 0.1),
   (w * 0.60, h * 0.22, 55, -0.08),
   (w * 0.28, h * 0.35, 40, 0.2),
   (w * 0.75, h * 0.15, 45, -0.12)]

def glassStops : List (ℚ × Col) :=
  [(0, ⟨0.55, 0.82, 0.75, 0.08⟩),
   (0.3, ⟨0.40, 0.75, 0.65, 0.06⟩),
   (0.7, ⟨0.50, 0.80, 0.55, 0.07⟩),
   (1, ⟨0.65, 0.85, 0.50, 0.05⟩)]

/-- The vertical divider strokes of a panel (`for ci in range(1, cells_h)`,
`cells_h = 4`, `cell_w = size*2/4`). -/
def panelGridV (size : ℚ) : List CtxOp :=
  let cellW := (size * 2) / 4
  ((pyRange 1 4 1).map (fun (ci : Int) =>
    let xx := -size + (ci : ℚ) * cellW
    [CtxOp.moveTo xx (-size * 0.7), CtxOp.lineTo xx (size * 0.7), CtxOp.stroke])).flatten

/-- The horizontal divider strokes (`for cj in range(1, cells_v)`,
`cells_v = 3`, `cell_h = size*1.4/3`). -/
def panelGridH (size : ℚ) : List CtxOp :=
  let cellH := (size * 1.4) / 3
  ((pyRange 1 3 1).map (fun (cj : Int) =>
    let yy := -size * 0.7 + (cj : ℚ) * cellH
    [CtxOp.moveTo (-size) yy, CtxOp.lineTo size yy, CtxOp.stroke])).flatten

/-- One panel: rounded-rect path, glass gradient fill, rim stroke, divider
grid, diagonal highlight — all inside a save/translate/rotate scope. -/
def panelOps (panel : ℚ × ℚ × ℚ × ℚ) : List CtxOp :=
  let px := panel.1
  let py := panel.2.1
  let size := panel.2.2.1
  let rot := panel.2.2.2
  let r : ℚ := 6
  [.save, .translate px py, .rotate rot,
   .moveTo (-size + r) (-size * 0.7),
   .lineTo (size - r) (-size * 0.7),
   .curveTo size (-size * 0.7) size (-size * 0.7) size (-size * 0.7 + r),
   .lineTo size (size * 0.7 - r),
   .curveTo size (size * 0.7) size (size * 0.7) (size - r) (size * 0.7),
   .lineTo (-size + r) (size * 0.7),
   .curveTo (-size) (size * 0.7) (-size) (size * 0.7) (-size) (size * 0.7 - r),
   .lineTo (-size) (-size * 0.7 + r),
   .curveTo (-size) (-size * 0.7) (-size) (-size * 0.7) (-size + r) (-size * 0.7),
   .closePath,
   .setLinear (-size) (-size * 0.7) size (size * 0.7) glassStops,
   .fillPreserve,
   rgbOp 180 150 50 0.15, .setLineWidth 1.5, .stroke,
   .setLineWidth 0.5, rgbOp 160 140 60 0.1] ++
  panelGridV size ++
  panelGridH size ++
  [.moveTo (-size * 0.6) (-size * 0.5), .lineTo (-size * 0.2) (-size * 0.65),
   .setLineWidth 2, rgbOp 255 255 240 0.12, .stroke,
   .restore]

def panelsOps (w h : ℚ) : List CtxOp :=
  ((panelsData w h).map panelOps).flatten

/-! ## Stage 8: corner ornaments (lines 493–516; no draws) -/

/-- The five nested arcs of the top-left ornament. -/
def cornerArcs1 (env : Env) : List CtxOp :=
  ((List.range 5).map (fun (i : ℕ) =>
    [CtxOp.arc 0 0 (80 + (i : ℚ) * 25) 0 (env.pi / 2), CtxOp.stroke])).flatten

def corner1Ops (env : Env) : List CtxOp :=
  [.save, .setLineWidth 1.5, rgbOp 160 140 50 0.12] ++
  cornerArcs1 env ++
  [.setLineWidth 1, rgbOp 58 110 40 0.15,
   .moveTo 0 120, .curveTo 40 100 80 60 120 0, .stroke,
   .moveTo 0 160, .curveTo 60 140 110 90 160 0, .stroke,
   .restore]

/-- The five nested arcs of the top-right ornament. -/
def cornerArcs2 (env : Env) : List CtxOp :=
  ((List.range 5).map (fun (i : ℕ) =>
    [CtxOp.arc 0 0 (80 + (i : ℚ) * 25) (env.pi / 2) env.pi, CtxOp.stroke])).flatten

def corner2Ops (env : Env) (w : ℚ) : List CtxOp :=
  [.save, .translate w 0, .setLineWidth 1.5, rgbOp 160 140 50 0.1] ++
  cornerArcs2 env ++
  [.restore]

def cornersOps (env : Env) (w : ℚ) : List CtxOp :=
  corner1Ops env ++ corner2Ops env w

/-! ## Stage 9: floating leaves and pollen (lines 521–546) -/

/-- One floating leaf (six draws), inside a save/translate/rotate scope. -/
def floatLeafOps (env : Env) (w h : ℚ) (rng : Rng) (_j : Nat) (i : Nat) :
    List CtxOp × Nat :=
  let lx := uniform 60 (w - 60) (rng i)
  let ly := uniform 80 (h * 0.55) (rng (i + 1))
  let la := uniform 0 (2 * env.pi) (rng (i + 2))
  let ls := uniform 8 18 (rng (i + 3))
  let g := uniform 0.35 0.55 (rng (i + 4))
  let alpha := uniform 0.06 0.15 (rng (i + 5))
  ([.save, .translate lx ly, .rotate la, .moveTo 0 0,
    .curveTo (ls * 0.3) (-ls * 0.25) (ls * 0.7) (-ls * 0.12) ls 0,
    .curveTo (ls * 0.7) (ls * 0.12) (ls * 0.3) (ls * 0.25) 0 0,
    .setSourceRgba 0.18 g 0.15 alpha, .fill, .restore], i + 6)

def leavesOps (env : Env) (w h : ℚ) (rng : Rng) (i : Nat) : List CtxOp × Nat :=
  seqCells (floatLeafOps env w h rng) (List.range 35) i

/-- One pollen/dust grain: three position/size draws, then either one
golden-alpha draw (every third grain) or a green-channel and an alpha draw. -/
def pollenGrainOps (env : Env) (w h : ℚ) (rng : Rng) (j : Nat) (i : Nat) :
    List CtxOp × Nat :=
  let px := uniform 0 w (rng i)
  let py := uniform 0 (h * 0.85) (rng (i + 1))
  let ps := uniform 0.8 3.0 (rng (i + 2))
  if j % 3 = 0 then
    ([.setSourceRgba 0.85 0.72 0.22 (uniform 0.08 0.25 (rng (i + 3))),
      .arc px py ps 0 (2 * env.pi), .fill], i + 4)
  else
    ([.setSourceRgba 0.35 (uniform 0.45 0.65 (rng (i + 3))) 0.28
        (uniform 0.06 0.15 (rng (i + 4))),
      .arc px py ps 0 (2 * env.pi), .fill], i + 5)

def pollenOps (env : Env) (w h : ℚ) (rng : Rng) (i : Nat) : List CtxOp × Nat :=
  seqCells (pollenGrainOps env w h rng) (List.range 120) i

/-! ## Stage 10: frame and grain texture (lines 551–565) -/

def frameOps (w h : ℚ) : List CtxOp :=
  let margin : ℚ := 30
  [.setLineWidth 1.0, rgbOp 160 140 50 0.08,
   .rect margin margin (w - 2 * margin) (h - 2 * margin), .stroke,
   rgbOp 58 110 40 0.06,
   .rect (margin + 8) (margin + 8) (w - 2 * (margin + 8)) (h - 2 * (margin + 8)), .stroke]

/-- One grain dot (four draws: position, alpha, radius). -/
def grainDotOps (env : Env) (w h : ℚ) (rng : Rng) (_j : Nat) (i : Nat) :
    List CtxOp × Nat :=
  let tx := uniform 0 w (rng i)
  let ty := uniform 0 h (rng (i + 1))
  ([.setSourceRgba 0.5 0.55 0.4 (uniform 0.01 0.025 (rng (i + 2))),
    .arc tx ty (uniform 0.3 1.2 (rng (i + 3))) 0 (2 * env.pi), .fill], i + 4)

def grainOps (env : Env) (w h : ℚ) (rng : Rng) (i : Nat) : List CtxOp × Nat :=
  seqCells (grainDotOps env w h rng) (List.range 3000) i

/-! ## The compositing pipeline (whole-script orchestration)

The script's draw order is fixed: sky → sun glow/rays/core → building
generation → skyline drawn onto the separate `city_surface` → external
Gaussian blur (`convert … -blur 0x8`) producing a new blurred surface →
`ctx.paint_with_alpha(0.85)` compositing it onto the main canvas → haze →
hills → vines → ferns → ground gradient → panels → corners → floating
leaves → pollen → frame → grain.  Pixel-level rasterization is Cairo's
(outside the repository); it is abstracted as a `RenderApi`. -/

/-- Which canvas a drawing stage targets. -/
inductive Target where
  | main
  | city
deriving DecidableEq, Repr

/-- One stage of the pipeline, in the script's fixed order. -/
inductive Stage where
  | sky
  | sunGlow
  | sunRays
  | sunCore
  | genSkyline
  | skyline (t : Target)
  | blurCity (r : ℚ)
  | compositeCity (alpha : ℚ)
  | haze
  | hills
  | vines
  | ferns
  | ground
  | panels
  | corners
  | leaves
  | pollen
  | frame
  | grain
deriving DecidableEq, Repr

/-- Abstract rasterization interface (Cairo / PNG round-trip internals are
not part of the repository): a blank surface constructor, a drawing-op
interpreter, the external blur, and `paint_with_alpha` compositing. -/
structure RenderApi (Cv : Type) where
  blank : ℚ → ℚ → Cv
  applyOp : CtxOp → Cv → Cv
  blur : Cv → ℚ → Cv
  paintWithAlpha : Cv → Cv → ℚ → Cv

/-- Apply a list of drawing ops to a canvas, left to right. -/
def applyOps {Cv : Type} (api : RenderApi Cv) (ops : List CtxOp) (c : Cv) : Cv :=
  ops.foldl (fun acc op => api.applyOp op acc) c

/-- Pipeline state: the main canvas, the intermediate city surface, the
blurred copy, the generated building list, and the random-stream position. -/
structure PState (Cv : Type) where
  main : Cv
  city : Cv
  blurred : Cv
  blds : List Building
  idx : Nat

/-- Interpret one stage. -/
def applyStage {Cv : Type} (api : RenderApi Cv) (env : Env) (w h : ℚ) (rng : Rng)
    (st : PState Cv) : Stage → PState Cv
  | .sky => { st with main := applyOps api (skyOps h) st.main }
  | .sunGlow => { st with main := applyOps api (sunGlowOps w h) st.main }
  | .sunRays =>
    let p := sunRaysOps env w h rng st.idx
    { st with main := applyOps api p.1 st.main, idx := p.2 }
  | .sunCore => { st with main := applyOps api (sunCoreOps env w h) st.main }
  | .genSkyline =>
    let p := genBuildings w rng st.idx
    { st with blds := p.1, idx := p.2.2 }
  | .skyline t =>
    let p := cityOps env h 1 0 0 st.blds rng st.idx
    match t with
    | .city => { st with city := applyOps api p.1 st.city, idx := p.2 }
    | .main => { st with main := applyOps api p.1 st.main, idx := p.2 }
  | .blurCity r => { st with blurred := api.blur st.city r }
  | .compositeCity alpha => { st with main := api.paintWithAlpha st.main st.blurred alpha }
  | .haze => { st with main := applyOps api (hazeOps w h) st.main }
  | .hills =>
    let p := hillsOps env w h rng st.idx
    { st with main := applyOps api p.1 st.main, idx := p.2 }
  | .vines =>
    let p := vinesOps env w h rng st.idx
    { st with main := applyOps api p.1 st.main, idx := p.2 }
  | .ferns =>
    let p := fernsOps env w h rng st.idx
    { st with main := applyOps api p.1 st.main, idx := p.2 }
  | .ground => { st with main := applyOps api (groundOps w h) st.main }
  | .panels => { st with main := applyOps api (panelsOps w h) st.main }
  | .corners => { st with main := applyOps api (cornersOps env w) st.main }
  | .leaves =>
    let p := leavesOps env w h rng st.idx
    { st with main := applyOps api p.1 st.main, idx := p.2 }
  | .pollen =>
    let p := pollenOps env w h rng st.idx
    { st with main := applyOps api p.1 st.main, idx := p.2 }
  | .frame => { st with main := applyOps api (frameOps w h) st.main }
  | .grain =>
    let p := grainOps env w h rng st.idx
    { st with main := applyOps api p.1 st.main, idx := p.2 }

/-- The script's fixed stage order.  The blur parameter records the `8` of
`convert -blur 0x8`; the composite alpha is the `0.85` of
`ctx.paint_with_alpha(0.85)`. -/
def pipelineStages : List Stage :=
  [.sky, .sunGlow, .sunRays, .sunCore, .genSkyline, .skyline .city, .blurCity 8,
   .compositeCity 0.85, .haze, .hills, .vines, .ferns, .ground, .panels, .corners,
   .leaves, .pollen, .frame, .grain]

/-- The full generation pipeline: fold the fixed stage order over a fresh
state and return the finished main canvas. -/
def runPipeline {Cv : Type} (api : RenderApi Cv) (env : Env) (w h : ℚ) (rng : Rng) : Cv :=
  (pipelineStages.foldl (fun st s => applyStage api env w h rng st s)
    ⟨api.blank w h, api.blank w h, api.blank w h, [], 0⟩).main

/-- Modelled from the spec: the script's random source is Python's stdlib
`random` module seeded once with `random.seed(42)` — its implementation is
outside the repository.  §4.2 requires only a deterministic PRNG: same seed,
same stream.  Modelled as a multiplicative-hash stream into `[0, 1)`. -/
def seedStream (seed n : Nat) : Nat := (2654435761 * (seed + n) + 12345) % 4294967296

lemma seedStream_lt (seed n : Nat) : seedStream seed n < 4294967296 :=
  Nat.mod_lt _ (by norm_num)

/-- The deterministic seeded random stream. -/
def seededRng (seed : Nat) : Rng := fun n =>
  ⟨(seedStream seed n : ℚ) / 4294967296,
   ⟨by positivity,
    by
      rw [div_le_one (by norm_num)]
      exact_mod_cast (seedStream_lt seed n).le⟩⟩

/-! ## Raster blur (spec §4.4)

Modelled from the spec: the script performs the blur out of process
(`subprocess.run(['convert', …, '-blur', '0x8', …])`, lines 275–280), so the
convolution itself is not repository code.  §4.4 specifies a separable
two-pass weighted convolution with clamped edge sampling that returns a new
canvas of the source's dimensions without mutating the source. -/

/-- A raster buffer: dimensions plus a pixel function. -/
structure RasterCanvas where
  width : Nat
  height : Nat
  pix : Nat → Nat → Col

def colZero : Col := ⟨0, 0, 0, 0⟩

def colAdd (c d : Col) : Col := ⟨c.r + d.r, c.g + d.g, c.b + d.b, c.a + d.a⟩

def colScale (q : ℚ) (c : Col) : Col := ⟨q * c.r, q * c.g, q * c.b, q * c.a⟩

/-- Clamped (edge-replicating) index into a row or column of length `n`. -/
def clampIdx (i : Int) (n : Nat) : Nat := Int.toNat (max 0 (min i ((n : Int) - 1)))

/-- Tent kernel weight at offset `k` for radius `r` (total mass `(r+1)²`). -/
def tentWeight (r : Nat) (k : Int) : ℚ := (r : ℚ) + 1 - |(k : ℚ)|

/-- One horizontal convolution pass with clamped sampling. -/
def blurH (c : RasterCanvas) (r : Nat) : RasterCanvas :=
  { width := c.width, height := c.height,
    pix := fun x y =>
      colScale (1 / ((r : ℚ) + 1) ^ 2)
        (((List.range (2 * r + 1)).map (fun (k : ℕ) =>
          colScale (tentWeight r ((k : Int) - (r : Int)))
            (c.pix (clampIdx ((x : Int) + (k : Int) - (r : Int)) c.width) y))).foldl
          colAdd colZero) }

/-- One vertical convolution pass with clamped sampling. -/
def blurV (c : RasterCanvas) (r : Nat) : RasterCanvas :=
  { width := c.width, height := c.height,
    pix := fun x y =>
      colScale (1 / ((r : ℚ) + 1) ^ 2)
        (((List.range (2 * r + 1)).map (fun (k : ℕ) =>
          colScale (tentWeight r ((k : Int) - (r : Int)))
            (c.pix x (clampIdx ((y : Int) + (k : Int) - (r : Int)) c.height)))).foldl
          colAdd colZero) }

/-- `blur(sourceCanvas, radius) -> newCanvas`: the separable two-pass blur. -/
def blur (c : RasterCanvas) (r : Nat) : RasterCanvas := blurV (blurH c r) r

/-- The blur call as the script performs it: the source surface is written
out, the external filter produces a new surface, and both the (untouched)
source and the new blurred canvas are in play afterwards. -/
def blurCall (c : RasterCanvas) (r : Nat) : RasterCanvas × RasterCanvas := (c, blur c r)

/-! ## Gradient sampling (for the sky-gradient scenario)

Modelled from the spec: Cairo's linear-gradient rasterization is outside the
repository; a linear gradient colors the point `(x, y)` by projecting it
onto the gradient axis and linearly interpolating between adjacent stops. -/

/-- Linear interpolation between two colors. -/
def lerpCol (c1 c2 : Col) (u : ℚ) : Col :=
  ⟨c1.r + (c2.r - c1.r) * u, c1.g + (c2.g - c1.g) * u,
   c1.b + (c2.b - c1.b) * u, c1.a + (c2.a - c1.a) * u⟩

/-- Evaluate a stop list at parameter `t` (piecewise-linear between adjacent
stops). -/
def evalStops : List (ℚ × Col) → ℚ → Col
  | [], _ => colZero
  | [(_, c)], _ => c
  | (p1, c1) :: (p2, c2) :: rest, t =>
    if t ≤ p2 then lerpCol c1 c2 ((t - p1) / (p2 - p1))
    else evalStops ((p2, c2) :: rest) t

/-- Projection of the point `(x, y)` onto the axis of a linear gradient from
`(x0, y0)` to `(x1, y1)`. -/
def linGradT (x0 y0 x1 y1 x y : ℚ) : ℚ :=
  ((x - x0) * (x1 - x0) + (y - y0) * (y1 - y0)) / ((x1 - x0) ^ 2 + (y1 - y0) ^ 2)

/-- Color of the sky-gradient stage at canvas point `(x, y)`: the script's
`LinearGradient(0, 0, 0, H)` with `skyStops`, painted over the full canvas. -/
def skyPixel (h x y : ℚ) : Col := evalStops skyStops (linGradT 0 0 0 h x y)

/-! ## Transform-state semantics of `save` / `restore`

`ctx.save()` pushes the current transform, `translate` / `rotate` modify it,
`ctx.restore()` pops.  All other ops leave the transform state unchanged. -/

/-- A primitive transform, as recorded by the context. -/
inductive PrimT where
  | translation (x y : ℚ)
  | rotation (a : ℚ)
deriving DecidableEq, Repr

/-- The context's transform state: the current transform (innermost first)
and the saved stack. -/
structure TState where
  cur : List PrimT
  stk : List (List PrimT)
deriving DecidableEq, Repr

/-- Effect of one op on the transform state. -/
def applyTOp (st : TState) : CtxOp → TState
  | .save => ⟨st.cur, st.cur :: st.stk⟩
  | .restore =>
    match st.stk with
    | [] => st
    | c :: s => ⟨c, s⟩
  | .translate x y => ⟨.translation x y :: st.cur, st.stk⟩
  | .rotate a => ⟨.rotation a :: st.cur, st.stk⟩
  | _ => st

/-- Effect of a list of ops on the transform state. -/
def applyTs (ops : List CtxOp) (st : TState) : TState :=
  ops.foldl applyTOp st

/-! ## The wallet-integration stub writer (`src/write_pivx_module.py`)

The script assigns one plain (non-interpolated) triple-quoted string literal
to `content` and writes it to a fixed relative path; it imports nothing,
reads no input, and references nothing from the rendering pipeline.  The
full ≈500-line Rust-source literal is elided here (its text plays no role in
any claim); only its constancy matters. -/

def pivxPath : String := "../../src-tauri/src/pivx_integration.rs"

/-- The fixed stub text (first line shown; the literal is a single constant
with no interpolation). -/
def pivxContent : String := "// pivx_integration.rs - Integration PIVX pour Janus Monitor"

/-- The writer, given every input the rendering pipeline has (seed, canvas
dimensions, and the pipeline's drawing state): it ignores all of them and
returns the fixed path and fixed content. -/
def writePivxModule (_seed : Nat) (_w _h : ℚ) (_pipelineState : List CtxOp) :
    String × String :=
  (pivxPath, pivxContent)

/-! ## Concrete instances used by witnesses -/

/-- A trace-collecting rasterizer: the canvas is the list of ops applied. -/
def traceApi : RenderApi (List CtxOp) :=
  ⟨fun _ _ => [], fun op c => c ++ [op], fun c _ => c, fun dst _ _ => dst⟩

/-- A degenerate environment (all claims are independent of `sin`/`cos`/`pi`
values). -/
def envZero : Env := ⟨0, fun _ => 0, fun _ => 0⟩

/-- A 1×1 all-white raster canvas. -/
def onePixel : RasterCanvas := ⟨1, 1, fun _ _ => ⟨1, 1, 1, 1⟩⟩

/-! ## Claim theorems -/

/-- C1: for every fixed seed and canvas dimensions, two runs of the full
generation pipeline produce identical output: the final canvas is a pure
function of the seed (and the fixed draw order), whatever rasterizer
interprets the ops. -/
theorem pipeline_deterministic {Cv : Type} (api : RenderApi Cv) (env : Env) (w h : ℚ)
    (s1 s2 : Nat) (hseed : s1 = s2) :
    runPipeline api env w h (seededRng s1) = runPipeline api env w h (seededRng s2) := by
  rw [hseed]

/-- Witness for C1 at the script's own parameters (seed 42, 1800×1200). -/
theorem pipeline_deterministic_witness :
    42 = 42 ∧
      runPipeline traceApi envZero 1800 1200 (seededRng 42) =
        runPipeline traceApi envZero 1800 1200 (seededRng 42) :=
  ⟨rfl, pipeline_deterministic traceApi envZero 1800 1200 42 42 rfl⟩

/-- Recognizers for the stages the ordering claim mentions. -/
def isSkylineStage : Stage → Bool
  | .skyline _ => true
  | _ => false

def isBlurStage : Stage → Bool
  | .blurCity _ => true
  | _ => false

def isCompositeStage : Stage → Bool
  | .compositeCity _ => true
  | _ => false

def isSunCoreStage : Stage → Bool
  | .sunCore => true
  | _ => false

def isHazeStage : Stage → Bool
  | .haze => true
  | _ => false

/-- C2: the pipeline renders the skyline only onto the intermediate city
surface (never onto the main canvas), blurs it with parameter 8, composites
the blurred copy at global alpha 0.85, and does so after the sun stage and
before the atmospheric haze overlay. -/
theorem pipeline_order_spec :
    pipelineStages.filter isSkylineStage = [.skyline .city] ∧
    pipelineStages.filter isBlurStage = [.blurCity 8] ∧
    pipelineStages.filter isCompositeStage = [.compositeCity 0.85] ∧
    pipelineStages.findIdx isSunCoreStage < pipelineStages.findIdx isSkylineStage ∧
    pipelineStages.findIdx isSkylineStage < pipelineStages.findIdx isBlurStage ∧
    pipelineStages.findIdx isBlurStage < pipelineStages.findIdx isCompositeStage ∧
    pipelineStages.findIdx isCompositeStage < pipelineStages.findIdx isHazeStage :=
  ⟨rfl, rfl, rfl, by decide, by decide, by decide, by decide⟩

/-- C3: `blur` returns a new canvas of the source's dimensions, leaves the
source canvas as it was, and is deterministic (two calls on the same input
give identical output). -/
theorem blur_contract (c : RasterCanvas) (r : Nat) :
    (blur c r).width = c.width ∧ (blur c r).height = c.height ∧
    (blurCall c r).1 = c ∧
    ∀ c2 r2, c = c2 → r = r2 → blur c r = blur c2 r2 := by
  refine ⟨rfl, rfl, rfl, ?_⟩
  rintro c2 r2 rfl rfl
  rfl

/-- Witness for C3 on a concrete 1×1 canvas at the script's radius 8. -/
theorem blur_contract_witness :
    (blur onePixel 8).width = onePixel.width ∧
      (blur onePixel 8).height = onePixel.height ∧
      (blurCall onePixel 8).1 = onePixel ∧
      blur onePixel 8 = blur onePixel 8 :=
  ⟨(blur_contract onePixel 8).1, (blur_contract onePixel 8).2.1,
   (blur_contract onePixel 8).2.2.1,
   (blur_contract onePixel 8).2.2.2 onePixel 8 rfl rfl⟩

/-- C9: the wallet-integration stub writer's output is one fixed constant
pair (path, content), identical regardless of the seed, the canvas
dimensions, or any state of the rendering pipeline. -/
theorem pivx_stub_constant :
    ∀ (s1 s2 : Nat) (w1 h1 w2 h2 : ℚ) (o1 o2 : List CtxOp),
      writePivxModule s1 w1 h1 o1 = writePivxModule s2 w2 h2 o2 :=
  fun _ _ _ _ _ _ _ _ => rfl

/-- C10: whenever `draw_vine`'s vertical sampling loop yields fewer than two
points, the call emits no drawing op, consumes no random draw, and leaves
the canvas unchanged. -/
theorem vine_early_return {Cv : Type} (api : RenderApi Cv) (c : Cv) (env : Env)
    (xBase yStart yEnd thickness : ℚ) (right : Bool) (rng : Rng) (i : Nat)
    (hlen : (vinePoints env xBase yStart yEnd right).length < 2) :
    (vineOps env xBase yStart yEnd right thickness rng i).1 = [] ∧
    (vineOps env xBase yStart yEnd right thickness rng i).2 = i ∧
    applyOps api (vineOps env xBase yStart yEnd right thickness rng i).1 c = c := by
  have h : vineOps env xBase yStart yEnd right thickness rng i = ([], i) := by
    simp only [vineOps]
    rw [if_pos hlen]
  rw [h]
  exact ⟨rfl, rfl, rfl⟩

/-- Witness for C10: a call spanning a single 3-px step (`y_start = 50`,
`y_end = 51`) produces one sample point, and the canvas is untouched. -/
theorem vine_early_return_witness :
    (vinePoints envZero 25 50 51 false).length < 2 ∧
      (vineOps envZero 25 50 51 false 3 (seededRng 42) 0).1 = [] ∧
      (vineOps envZero 25 50 51 false 3 (seededRng 42) 0).2 = 0 ∧
      applyOps traceApi (vineOps envZero 25 50 51 false 3 (seededRng 42) 0).1 [] = [] := by
  have hc : ⌈((51 : ℚ) - 50) / 3⌉ = 1 := by
    rw [show ((51 : ℚ) - 50) / 3 = 1 / 3 by norm_num, Int.ceil_eq_iff]
    constructor <;> norm_num
  have hlen : (vinePoints envZero 25 50 51 false).length < 2 := by
    simp only [vinePoints, qRange, List.length_map, List.length_range]
    rw [hc]
    norm_num
  have h := vine_early_return traceApi [] envZero 25 50 51 3 false (seededRng 42) 0 hlen
  exact ⟨hlen, h.1, h.2.1, h.2.2⟩

/-! ## C7: sun-ray randomization -/

/-- The alpha argument of the first `setSourceRgba` in an op list (0 if
none): observes the color a drawing block sets. -/
def firstAlpha : List CtxOp → ℚ
  | [] => 0
  | .setSourceRgba _ _ _ a :: _ => a
  | _ :: rest => firstAlpha rest

/-- The x-coordinate of the first `lineTo` in an op list (0 if none): for a
ray block this is the ray's length. -/
def firstLineToX : List CtxOp → ℚ
  | [] => 0
  | .lineTo x _ :: _ => x
  | _ :: rest => firstLineToX rest

/-- Constant random streams (used to exhibit dependence/independence). -/
def rngZero : Rng := fun _ => ⟨0, by norm_num⟩

def rngOne : Rng := fun _ => ⟨1, by norm_num⟩

/-- C7 as stated: for each of the 24 rays, both the ray's length and its
opacity are drawn from the random source (each genuinely varies with it). -/
def RaysFullyRandomized : Prop :=
  ∀ (env : Env) (w h : ℚ) (i0 i : Nat), i < 24 →
    (∃ r1 r2 : Rng,
      firstLineToX (rayOps env w h r1 i0 i) ≠ firstLineToX (rayOps env w h r2 i0 i)) ∧
    (∃ r1 r2 : Rng,
      firstAlpha (rayOps env w h r1 i0 i) ≠ firstAlpha (rayOps env w h r2 i0 i))

/-- C7 counterexample: ray opacity is `0.14 if i % 3 == 0 else 0.08`, a
deterministic function of the loop index — it never reads the random
source, so the claim fails (already at ray 0). -/
theorem ray_opacity_not_random : ¬ RaysFullyRandomized := by
  intro hcl
  obtain ⟨-, r1, r2, hne⟩ := hcl envZero 1800 1200 24 0 (by norm_num)
  exact hne rfl

/-- C7 amended: each ray's length is randomized — `350 + uniform(-80, 120)`
from the ray's own draw, hence in `[270, 470]` and genuinely dependent on
the stream — while its opacity is the deterministic per-index constant
`0.14` (when `i % 3 = 0`) or `0.08`, identical across all streams. -/
theorem sun_rays_amended (env : Env) (w h : ℚ) (rng : Rng) (i0 i : Nat) (_hi : i < 24) :
    firstLineToX (rayOps env w h rng i0 i) = 350 + uniform (-80) 120 (rng (i0 + i)) ∧
    270 ≤ firstLineToX (rayOps env w h rng i0 i) ∧
    firstLineToX (rayOps env w h rng i0 i) ≤ 470 ∧
    (∃ r1 r2 : Rng,
      firstLineToX (rayOps env w h r1 i0 i) ≠ firstLineToX (rayOps env w h r2 i0 i)) ∧
    (∀ r1 r2 : Rng,
      firstAlpha (rayOps env w h r1 i0 i) = firstAlpha (rayOps env w h r2 i0 i)) ∧
    (i % 3 = 0 → firstAlpha (rayOps env w h rng i0 i) = 0.14) ∧
    (i % 3 ≠ 0 → firstAlpha (rayOps env w h rng i0 i) = 0.08) := by
  have hx : firstLineToX (rayOps env w h rng i0 i) = rayLength rng i0 i := rfl
  have ha : firstAlpha (rayOps env w h rng i0 i) = rayAlphaVal i := rfl
  refine ⟨hx, ?_, ?_, ?_, fun r1 r2 => rfl, ?_, ?_⟩
  · rw [hx]
    have := @le_uniform (-80) 120 (by norm_num) (rng (i0 + i))
    simp only [rayLength]
    linarith
  · rw [hx]
    have := @uniform_le (-80) 120 (by norm_num) (rng (i0 + i))
    simp only [rayLength]
    linarith
  · refine ⟨rngZero, rngOne, ?_⟩
    show rayLength rngZero i0 i ≠ rayLength rngOne i0 i
    simp only [rayLength, uniform, rngZero, rngOne]
    norm_num
  · intro h3
    rw [ha]
    simp [rayAlphaVal, h3]
  · intro h3
    rw [ha]
    simp [rayAlphaVal, h3]

/-- Witness for C7's amended theorem: rays 0 and 1 at the script's
parameters — opacity `0.14` for ray 0 (`0 % 3 = 0`), `0.08` for ray 1. -/
theorem sun_rays_amended_witness :
    (0 < 24 ∧ firstAlpha (rayOps envZero 1800 1200 (seededRng 42) 24 0) = 0.14) ∧
    (1 < 24 ∧ firstAlpha (rayOps envZero 1800 1200 (seededRng 42) 24 1) = 0.08) :=
  ⟨⟨by norm_num,
    (sun_rays_amended envZero 1800 1200 (seededRng 42) 24 0 (by norm_num)).2.2.2.2.2.1 rfl⟩,
   ⟨by norm_num,
    (sun_rays_amended envZero 1800 1200 (seededRng 42) 24 1 (by norm_num)).2.2.2.2.2.2
      (by norm_num)⟩⟩

/-! ## C6: hill silhouettes and their phase draws -/

/-- The phase offset used at the `k`-th sample of a hill whose loop starts
at stream position `i`: the fresh `random.uniform(0, 1)` of that sample. -/
def hillPhase (rng : Rng) (i k : Nat) : ℚ := uniform 0 1 (rng (i + k))

/-- C6's phase assertion as stated: within a hill the random phase offset is
drawn once per run — a single value, constant along the hill's width. -/
def HillPhaseConstant : Prop :=
  ∀ (rng : Rng) (i k1 k2 : Nat), hillPhase rng i k1 = hillPhase rng i k2

/-- Unfold one iteration of the hill loop (running case). -/
lemma hillLoop_pos {env : Env} {w base : ℚ} {rng : Rng} {x : ℚ} {i : Nat}
    (hx : x < w + 50) :
    hillLoop env w base rng x i =
      (CtxOp.lineTo x (base + env.sin (x * 0.003 + uniform 0 1 (rng i)) * 35 +
          env.sin (x * 0.008) * 18) :: (hillLoop env w base rng (x + 3) (i + 1)).1,
       (hillLoop env w base rng (x + 3) (i + 1)).2) := by
  rw [hillLoop]
  simp [hx]

/-- Unfold one iteration of the hill loop (stopped case). -/
lemma hillLoop_neg {env : Env} {w base : ℚ} {rng : Rng} {x : ℚ} {i : Nat}
    (hx : ¬ x < w + 50) :
    hillLoop env w base rng x i = ([], i) := by
  rw [hillLoop]
  simp [hx]

/-- On a positive-width canvas the hill loop emits at least one sample. -/
lemma hillLoop_length_pos (env : Env) (w base : ℚ) (rng : Rng) (i : Nat)
    (hw : (0 : ℚ) < w + 50) :
    0 < (hillLoop env w base rng 0 i).1.length := by
  rw [hillLoop_pos hw]
  simp

/-- Closed form of the hill loop's samples: the `k`-th emitted op is a
`line_to` at `x₀ + 3k` whose height uses the phase drawn at that very
sample (stream position `i + k`). -/
lemma hillLoop_getD (env : Env) (w base : ℚ) (rng : Rng) :
    ∀ (k : Nat) (x : ℚ) (i : Nat), k < (hillLoop env w base rng x i).1.length →
      (hillLoop env w base rng x i).1.getD k CtxOp.paint =
        CtxOp.lineTo (x + 3 * k)
          (base + env.sin ((x + 3 * k) * 0.003 + uniform 0 1 (rng (i + k))) * 35 +
            env.sin ((x + 3 * k) * 0.008) * 18) := by
  intro k
  induction k with
  | zero =>
    intro x i hk
    by_cases hx : x < w + 50
    · rw [hillLoop_pos hx]
      norm_num
    · rw [hillLoop_neg hx] at hk
      simp at hk
  | succ k ih =>
    intro x i hk
    by_cases hx : x < w + 50
    · rw [hillLoop_pos hx] at hk ⊢
      simp only [List.length_cons, Nat.succ_lt_succ_iff] at hk
      rw [List.getD_cons_succ]
      rw [ih (x + 3) (i + 1) hk]
      rw [show (x + 3) + 3 * (k : ℚ) = x + 3 * ((k + 1 : ℕ) : ℚ) by push_cast; ring]
      rw [show (i + 1) + k = i + (k + 1) by omega]
    · rw [hillLoop_neg hx] at hk
      simp at hk

/-- The reference stream draws different phases for the first two samples
of the first hill. -/
lemma seeded_phase_ne : hillPhase (seededRng 42) 0 0 ≠ hillPhase (seededRng 42) 0 1 := by
  simp only [hillPhase, uniform, seededRng, seedStream]
  norm_num

/-- C6 counterexample: the phase offset is not a single per-hill constant —
the code draws a fresh `uniform(0, 1)` inside the sample loop, so already
the first two samples of a hill can use different phases. -/
theorem hill_phase_not_constant : ¬ HillPhaseConstant := fun hcl =>
  seeded_phase_ne (hcl (seededRng 42) 0 0 1)

/-- C6 amended: four stacked hills at fixed baselines `0.58H…0.78H` with
opacity increasing toward the foreground, each silhouette sample the sum of
two sine waves — but the phase offset of the first sine is redrawn
uniformly from `[0, 1]` at every 3-px sample (stream position `i + k`), not
drawn once per hill. -/
theorem hill_silhouette_amended (env : Env) (w hgt : ℚ) (rng : Rng) (i : Nat) :
    (hillsData hgt).map (fun t => t.1) =
      [hgt * 0.58, hgt * 0.64, hgt * 0.70, hgt * 0.78] ∧
    (hillsData hgt).map (fun t => t.2.1) = [0.14, 0.18, 0.24, 0.30] ∧
    ((0.14 : ℚ) < 0.18 ∧ (0.18 : ℚ) < 0.24 ∧ (0.24 : ℚ) < 0.30) ∧
    (∀ (base : ℚ) (k : Nat), k < (hillLoop env w base rng 0 i).1.length →
      (hillLoop env w base rng 0 i).1.getD k CtxOp.paint =
        CtxOp.lineTo (0 + 3 * k)
          (base + env.sin ((0 + 3 * k) * 0.003 + hillPhase rng i k) * 35 +
            env.sin ((0 + 3 * k) * 0.008) * 18)) ∧
    (∃ r : Rng, hillPhase r 0 0 ≠ hillPhase r 0 1) := by
  refine ⟨rfl, rfl, ⟨by norm_num, by norm_num, by norm_num⟩, ?_, ⟨seededRng 42, seeded_phase_ne⟩⟩
  intro base k hk
  exact hillLoop_getD env w base rng k 0 i hk

/-- Witness for C6's amended theorem: the first sample of a hill on a
10-wide canvas. -/
theorem hill_silhouette_amended_witness :
    0 < (hillLoop envZero 10 600 (seededRng 42) 0 0).1.length ∧
      (hillLoop envZero 10 600 (seededRng 42) 0 0).1.getD 0 CtxOp.paint =
        CtxOp.lineTo (0 + 3 * (0 : ℕ))
          (600 + envZero.sin ((0 + 3 * (0 : ℕ)) * 0.003 + hillPhase (seededRng 42) 0 0) * 35 +
            envZero.sin ((0 + 3 * (0 : ℕ)) * 0.008) * 18) :=
  ⟨hillLoop_length_pos envZero 10 600 (seededRng 42) 0 (by norm_num),
   (hill_silhouette_amended envZero 10 1200 (seededRng 42) 0).2.2.2.1 600 0
     (hillLoop_length_pos envZero 10 600 (seededRng 42) 0 (by norm_num))⟩

/-! ## C8: save/restore scoping of transform state -/

/-- Ops that neither save/restore nor modify the transform. -/
def neutralB : CtxOp → Bool
  | .save => false
  | .restore => false
  | .translate _ _ => false
  | .rotate _ => false
  | _ => true

lemma applyTs_append (a b : List CtxOp) (st : TState) :
    applyTs (a ++ b) st = applyTs b (applyTs a st) := by
  simp [applyTs, List.foldl_append]

lemma applyTOp_neutral {op : CtxOp} (h : neutralB op = true) (st : TState) :
    applyTOp st op = st := by
  cases op <;> simp [neutralB] at h <;> rfl

lemma applyTs_neutral : ∀ (l : List CtxOp), l.all neutralB = true →
    ∀ st, applyTs l st = st := by
  intro l
  induction l with
  | nil => intro _ st; rfl
  | cons a as ih =>
    intro h st
    rw [List.all_cons, Bool.and_eq_true] at h
    show applyTs as (applyTOp st a) = st
    rw [applyTOp_neutral h.1, ih h.2]

lemma flatten_tid : ∀ (ls : List (List CtxOp)), (∀ x ∈ ls, ∀ st, applyTs x st = st) →
    ∀ st, applyTs ls.flatten st = st := by
  intro ls
  induction ls with
  | nil => intro _ st; rfl
  | cons a as ih =>
    intro h st
    rw [List.flatten_cons, applyTs_append, h a (by simp)]
    exact ih (fun x hx => h x (by simp [hx])) st

lemma seqCells_tid {α : Type} (f : α → Nat → List CtxOp × Nat)
    (hf : ∀ a i st, applyTs (f a i).1 st = st) :
    ∀ (l : List α) (i : Nat) (st : TState), applyTs (seqCells f l i).1 st = st := by
  intro l
  induction l with
  | nil => intro i st; rfl
  | cons a as ih =>
    intro i st
    show applyTs ((f a i).1 ++ (seqCells f as (f a i).2).1) st = st
    rw [applyTs_append, hf, ih]

lemma fernFronds_neutral (fernH g : ℚ) : (fernFronds fernH g).all neutralB = true := by
  rw [List.all_eq_true]
  intro op hop
  simp only [fernFronds, List.mem_flatten, List.mem_map] at hop
  obtain ⟨sub, ⟨j2, hj2, rfl⟩, hop⟩ := hop
  simp only [List.mem_cons, List.not_mem_nil, or_false] at hop
  rcases hop with rfl | rfl | rfl | rfl | rfl <;> rfl

lemma panelGridV_neutral (size : ℚ) : (panelGridV size).all neutralB = true := by
  rw [List.all_eq_true]
  intro op hop
  simp only [panelGridV, List.mem_flatten, List.mem_map] at hop
  obtain ⟨sub, ⟨ci, hci, rfl⟩, hop⟩ := hop
  simp only [List.mem_cons, List.not_mem_nil, or_false] at hop
  rcases hop with rfl | rfl | rfl <;> rfl

lemma panelGridH_neutral (size : ℚ) : (panelGridH size).all neutralB = true := by
  rw [List.all_eq_true]
  intro op hop
  simp only [panelGridH, List.mem_flatten, List.mem_map] at hop
  obtain ⟨sub, ⟨cj, hcj, rfl⟩, hop⟩ := hop
  simp only [List.mem_cons, List.not_mem_nil, or_false] at hop
  rcases hop with rfl | rfl | rfl <;> rfl

lemma cornerArcs1_neutral (env : Env) : (cornerArcs1 env).all neutralB = true := by
  rw [List.all_eq_true]
  intro op hop
  simp only [cornerArcs1, List.mem_flatten, List.mem_map] at hop
  obtain ⟨sub, ⟨i, hi, rfl⟩, hop⟩ := hop
  simp only [List.mem_cons, List.not_mem_nil, or_false] at hop
  rcases hop with rfl | rfl <;> rfl

lemma cornerArcs2_neutral (env : Env) : (cornerArcs2 env).all neutralB = true := by
  rw [List.all_eq_true]
  intro op hop
  simp only [cornerArcs2, List.mem_flatten, List.mem_map] at hop
  obtain ⟨sub, ⟨i, hi, rfl⟩, hop⟩ := hop
  simp only [List.mem_cons, List.not_mem_nil, or_false] at hop
  rcases hop with rfl | rfl <;> rfl

lemma vineMain_neutral (pts : List (ℚ × ℚ)) (thickness : ℚ) :
    (vineMain pts thickness).all neutralB = true := by
  rw [List.all_eq_true]
  intro op hop
  simp only [vineMain, rgbOp, List.mem_append, List.mem_cons, List.not_mem_nil, or_false,
    List.mem_flatten, List.mem_map] at hop
  rcases hop with ((rfl | rfl | rfl | rfl) | ⟨sub, ⟨i, hi, rfl⟩, hop⟩) | rfl
  · rfl
  · rfl
  · rfl
  · rfl
  · by_cases hc : i + 1 < (pts.length : Int)
    · rw [if_pos hc] at hop
      simp only [List.mem_cons, List.not_mem_nil, or_false] at hop
      rw [hop]
      rfl
    · rw [if_neg hc] at hop
      exact absurd hop (List.not_mem_nil op)
  · rfl

lemma vineTendril_neutral (pts : List (ℚ × ℚ)) (thickness : ℚ) (right : Bool) :
    (vineTendril pts thickness right).all neutralB = true := by
  rw [List.all_eq_true]
  intro op hop
  simp only [vineTendril, rgbOp, List.mem_append, List.mem_cons, List.not_mem_nil, or_false,
    List.mem_flatten, List.mem_map] at hop
  rcases hop with (rfl | rfl) | ⟨sub, ⟨i, hi, rfl⟩, hop⟩
  · rfl
  · rfl
  · simp only [List.mem_cons, List.not_mem_nil, or_false] at hop
    rcases hop with rfl | rfl | rfl <;> rfl

lemma vineCurls_neutral (env : Env) (right : Bool) (pts : List (ℚ × ℚ)) :
    (vineCurls env right pts).all neutralB = true := by
  rw [List.all_eq_true]
  intro op hop
  simp only [vineCurls, vineCurl, rgbOp, List.mem_flatten, List.mem_map] at hop
  obtain ⟨sub, ⟨i, hi, rfl⟩, hop⟩ := hop
  simp only [List.mem_append, List.mem_cons, List.not_mem_nil, or_false,
    List.mem_map] at hop
  rcases hop with ((rfl | rfl | rfl) | ⟨t, ht, rfl⟩) | rfl <;> rfl

lemma rayOps_tid (env : Env) (w h : ℚ) (rng : Rng) (i0 i : Nat) (st : TState) :
    applyTs (rayOps env w h rng i0 i) st = st := rfl

lemma leafStamp_tid (env : Env) (right : Bool) (pts : List (ℚ × ℚ)) (rng : Rng)
    (iIdx : Int) (i : Nat) (st : TState) :
    applyTs (leafStamp env right pts rng iIdx i).1 st = st := rfl

lemma floatLeaf_tid (env : Env) (w h : ℚ) (rng : Rng) (j i : Nat) (st : TState) :
    applyTs (floatLeafOps env w h rng j i).1 st = st := rfl

lemma fern_tid (e : Env) (w h : ℚ) (rng : Rng) (j i : Nat) (st : TState) :
    applyTs (fernOps e w h rng j i).1 st = st := by
  simp only [fernOps]
  rw [applyTs_append, applyTs_append,
    applyTs_neutral _ (fernFronds_neutral _ _)]
  rfl

lemma panel_tid (panel : ℚ × ℚ × ℚ × ℚ) (st : TState) :
    applyTs (panelOps panel) st = st := by
  simp only [panelOps]
  rw [applyTs_append, applyTs_append, applyTs_append,
    applyTs_neutral _ (panelGridV_neutral _), applyTs_neutral _ (panelGridH_neutral _)]
  rfl

lemma corner1_tid (env : Env) (st : TState) : applyTs (corner1Ops env) st = st := by
  simp only [corner1Ops]
  rw [applyTs_append, applyTs_append, applyTs_neutral _ (cornerArcs1_neutral _)]
  rfl

lemma corner2_tid (env : Env) (w : ℚ) (st : TState) : applyTs (corner2Ops env w) st = st := by
  simp only [corner2Ops]
  rw [applyTs_append, applyTs_append, applyTs_neutral _ (cornerArcs2_neutral _)]
  rfl

lemma vine_tid (env : Env) (xb ys ye : ℚ) (right : Bool) (th : ℚ) (rng : Rng) (i : Nat)
    (st : TState) : applyTs (vineOps env xb ys ye right th rng i).1 st = st := by
  by_cases hlen : (vinePoints env xb ys ye right).length < 2
  · have h : (vineOps env xb ys ye right th rng i).1 = [] := by
      simp only [vineOps]
      rw [if_pos hlen]
    rw [h]
    rfl
  · have h : (vineOps env xb ys ye right th rng i).1 =
        vineMain (vinePoints env xb ys ye right) th ++
          vineTendril (vinePoints env xb ys ye right) th right ++
          (vineLeaves env right (vinePoints env xb ys ye right) rng i).1 ++
          vineCurls env right (vinePoints env xb ys ye right) := by
      simp only [vineOps]
      rw [if_neg hlen]
    have hleaves : ∀ st2, applyTs (vineLeaves env right (vinePoints env xb ys ye right) rng i).1
        st2 = st2 := fun st2 =>
      seqCells_tid _ (fun a j st3 => leafStamp_tid env right _ rng a j st3) _ i st2
    rw [h, applyTs_append, applyTs_append, applyTs_append,
      applyTs_neutral _ (vineMain_neutral _ _), applyTs_neutral _ (vineTendril_neutral _ _ _),
      hleaves, applyTs_neutral _ (vineCurls_neutral _ _ _)]

lemma sunRays_tid (env : Env) (w h : ℚ) (rng : Rng) (i0 : Nat) (st : TState) :
    applyTs (sunRaysOps env w h rng i0).1 st = st := by
  refine flatten_tid _ ?_ st
  intro x hx st2
  obtain ⟨i, -, rfl⟩ := List.mem_map.1 hx
  exact rayOps_tid env w h rng i0 i st2

lemma vines_tid (env : Env) (w h : ℚ) (rng : Rng) (i : Nat) (st : TState) :
    applyTs (vinesOps env w h rng i).1 st = st := by
  simp only [vinesOps]
  rw [applyTs_append, applyTs_append, applyTs_append,
    vine_tid, vine_tid, vine_tid, vine_tid]

lemma ferns_tid (env : Env) (w h : ℚ) (rng : Rng) (i : Nat) (st : TState) :
    applyTs (fernsOps env w h rng i).1 st = st :=
  seqCells_tid _ (fun a j st2 => fern_tid env w h rng a j st2) _ i st

lemma panels_tid (w h : ℚ) (st : TState) : applyTs (panelsOps w h) st = st := by
  refine flatten_tid _ ?_ st
  intro x hx st2
  obtain ⟨p, -, rfl⟩ := List.mem_map.1 hx
  exact panel_tid p st2

lemma corners_tid (env : Env) (w : ℚ) (st : TState) : applyTs (cornersOps env w) st = st := by
  simp only [cornersOps]
  rw [applyTs_append, corner1_tid, corner2_tid]

lemma leaves_tid (env : Env) (w h : ℚ) (rng : Rng) (i : Nat) (st : TState) :
    applyTs (leavesOps env w h rng i).1 st = st :=
  seqCells_tid _ (fun a j st2 => floatLeaf_tid env w h rng a j st2) _ i st

/-- C8: every `save()` in the script is matched by a `restore()` on every
exit path of its drawing block: each save-scoped block (sun ray, vine leaf
stamp, fern, glass panel, both corner ornaments, floating leaf) and each
stage containing such blocks — including `draw_vine` on both of its exit
paths — maps any transform state back to itself, so no transform leaks past
its logical block. -/
theorem save_restore_scoped :
    (∀ (env : Env) (w h : ℚ) (rng : Rng) (i0 i : Nat) (st : TState),
      applyTs (rayOps env w h rng i0 i) st = st) ∧
    (∀ (env : Env) (right : Bool) (pts : List (ℚ × ℚ)) (rng : Rng) (iIdx : Int)
      (i : Nat) (st : TState), applyTs (leafStamp env right pts rng iIdx i).1 st = st) ∧
    (∀ (e : Env) (w h : ℚ) (rng : Rng) (j i : Nat) (st : TState),
      applyTs (fernOps e w h rng j i).1 st = st) ∧
    (∀ (p : ℚ × ℚ × ℚ × ℚ) (st : TState), applyTs (panelOps p) st = st) ∧
    (∀ (env : Env) (st : TState), applyTs (corner1Ops env) st = st) ∧
    (∀ (env : Env) (w : ℚ) (st : TState), applyTs (corner2Ops env w) st = st) ∧
    (∀ (env : Env) (w h : ℚ) (rng : Rng) (j i : Nat) (st : TState),
      applyTs (floatLeafOps env w h rng j i).1 st = st) ∧
    (∀ (env : Env) (xb ys ye : ℚ) (right : Bool) (th : ℚ) (rng : Rng) (i : Nat)
      (st : TState), applyTs (vineOps env xb ys ye right th rng i).1 st = st) ∧
    (∀ (env : Env) (w h : ℚ) (rng : Rng) (i0 : Nat) (st : TState),
      applyTs (sunRaysOps env w h rng i0).1 st = st) ∧
    (∀ (env : Env) (w h : ℚ) (rng : Rng) (i : Nat) (st : TState),
      applyTs (vinesOps env w h rng i).1 st = st) ∧
    (∀ (env : Env) (w h : ℚ) (rng : Rng) (i : Nat) (st : TState),
      applyTs (fernsOps env w h rng i).1 st = st) ∧
    (∀ (w h : ℚ) (st : TState), applyTs (panelsOps w h) st = st) ∧
    (∀ (env : Env) (w : ℚ) (st : TState), applyTs (cornersOps env w) st = st) ∧
    (∀ (env : Env) (w h : ℚ) (rng : Rng) (i : Nat) (st : TState),
      applyTs (leavesOps env w h rng i).1 st = st) :=
  ⟨rayOps_tid, leafStamp_tid, fern_tid, panel_tid, corner1_tid, corner2_tid,
   floatLeaf_tid, vine_tid, sunRays_tid, vines_tid, ferns_tid, panels_tid,
   corners_tid, leaves_tid⟩

/-! ## C5: the sky-gradient scenario -/

/-- A vertical linear gradient from `(0,0)` to `(0,h)` is sampled at `y/h`. -/
lemma linGradT_vert (h x y : ℚ) (hne : h ≠ 0) : linGradT 0 0 0 h x y = y / h := by
  unfold linGradT
  field_simp
  ring

/-- Near the top edge (`t ≤ 1/20`) the sky gradient stays within `1/50` of
its first stop `(0.97, 0.96, 0.88)` and is fully opaque. -/
lemma sky_top_bounds {t : ℚ} (h0 : 0 ≤ t) (h1 : t ≤ 1 / 20) :
    |(evalStops skyStops t).r - 0.97| ≤ 1 / 50 ∧
    |(evalStops skyStops t).g - 0.96| ≤ 1 / 50 ∧
    |(evalStops skyStops t).b - 0.88| ≤ 1 / 50 ∧
    (evalStops skyStops t).a = 1 := by
  have he : evalStops skyStops t =
      lerpCol ⟨0.97, 0.96, 0.88, 1⟩ ⟨0.96, 0.95, 0.86, 1⟩ ((t - 0) / (0.12 - 0)) := by
    simp only [skyStops, evalStops]
    rw [if_pos (show t ≤ (0.12 : ℚ) by linarith)]
  have hu0 : (0 : ℚ) ≤ (t - 0) / (0.12 - 0) := div_nonneg (by linarith) (by norm_num)
  have hu1 : (t - 0) / (0.12 - 0) ≤ 5 / 12 := by
    rw [div_le_iff₀ (by norm_num)]
    linarith
  rw [he]
  simp only [lerpCol]
  refine ⟨?_, ?_, ?_, by norm_num⟩ <;> rw [abs_le] <;> constructor <;>
    nlinarith [hu0, hu1]

/-- Near the bottom edge (`t ≥ 19/20`) the sky gradient stays within `1/50`
of its last stop `(0.72, 0.84, 0.65)` and is fully opaque. -/
lemma sky_bottom_bounds {t : ℚ} (h0 : 19 / 20 ≤ t) (h1 : t ≤ 1) :
    |(evalStops skyStops t).r - 0.72| ≤ 1 / 50 ∧
    |(evalStops skyStops t).g - 0.84| ≤ 1 / 50 ∧
    |(evalStops skyStops t).b - 0.65| ≤ 1 / 50 ∧
    (evalStops skyStops t).a = 1 := by
  have he : evalStops skyStops t =
      lerpCol ⟨0.82, 0.90, 0.76, 1⟩ ⟨0.72, 0.84, 0.65, 1⟩ ((t - 0.70) / (1 - 0.70)) := by
    simp only [skyStops, evalStops]
    rw [if_neg (show ¬ t ≤ (0.12 : ℚ) by intro hc; linarith),
      if_neg (show ¬ t ≤ (0.30 : ℚ) by intro hc; linarith),
      if_neg (show ¬ t ≤ (0.50 : ℚ) by intro hc; linarith),
      if_neg (show ¬ t ≤ (0.70 : ℚ) by intro hc; linarith),
      if_pos (show t ≤ (1 : ℚ) by linarith)]
  have hu0 : (5 : ℚ) / 6 ≤ (t - 0.70) / (1 - 0.70) := by
    rw [le_div_iff₀ (by norm_num)]
    linarith
  have hu1 : (t - 0.70) / (1 - 0.70) ≤ 1 := by
    rw [div_le_one (by norm_num)]
    linarith
  rw [he]
  simp only [lerpCol]
  refine ⟨?_, ?_, ?_, by norm_num⟩ <;> rw [abs_le] <;> constructor <;>
    nlinarith [hu0, hu1]

/-- C5: the sky stage is one full-canvas linear-gradient paint with the
fixed stops, and (for any canvas at least 20 px tall) every pixel of the top
row is within `1/50` of `(0.97, 0.96, 0.88)` and every pixel of the bottom
row within `1/50` of `(0.72, 0.84, 0.65)`, both fully opaque. -/
theorem sky_gradient_rows (h : ℚ) (hh : 20 ≤ h) :
    skyOps h = [CtxOp.setLinear 0 0 0 h skyStops, CtxOp.paint] ∧
    (∀ x y : ℚ, 0 ≤ y → y ≤ 1 →
      |(skyPixel h x y).r - 0.97| ≤ 1 / 50 ∧ |(skyPixel h x y).g - 0.96| ≤ 1 / 50 ∧
      |(skyPixel h x y).b - 0.88| ≤ 1 / 50 ∧ (skyPixel h x y).a = 1) ∧
    (∀ x y : ℚ, h - 1 ≤ y → y ≤ h →
      |(skyPixel h x y).r - 0.72| ≤ 1 / 50 ∧ |(skyPixel h x y).g - 0.84| ≤ 1 / 50 ∧
      |(skyPixel h x y).b - 0.65| ≤ 1 / 50 ∧ (skyPixel h x y).a = 1) := by
  have hpos : (0 : ℚ) < h := by linarith
  have hT : ∀ x y : ℚ, skyPixel h x y = evalStops skyStops (y / h) := by
    intro x y
    unfold skyPixel
    rw [linGradT_vert h x y (ne_of_gt hpos)]
  refine ⟨rfl, ?_, ?_⟩
  · intro x y hy0 hy1
    rw [hT]
    refine sky_top_bounds (div_nonneg hy0 hpos.le) ?_
    rw [div_le_iff₀ hpos]
    nlinarith
  · intro x y hy0 hy1
    rw [hT]
    refine sky_bottom_bounds ?_ ((div_le_one hpos).mpr hy1)
    rw [le_div_iff₀ hpos]
    linarith

/-- Witness for C5 at the spec's scenario dimensions (100×100): the top-row
pixel `(0, 0)` and the bottom-row pixel `(0, 100)`. -/
theorem sky_gradient_rows_witness :
    (20 : ℚ) ≤ 100 ∧
    (|(skyPixel 100 0 0).r - 0.97| ≤ 1 / 50 ∧ |(skyPixel 100 0 0).g - 0.96| ≤ 1 / 50 ∧
      |(skyPixel 100 0 0).b - 0.88| ≤ 1 / 50 ∧ (skyPixel 100 0 0).a = 1) ∧
    (|(skyPixel 100 0 100).r - 0.72| ≤ 1 / 50 ∧ |(skyPixel 100 0 100).g - 0.84| ≤ 1 / 50 ∧
      |(skyPixel 100 0 100).b - 0.65| ≤ 1 / 50 ∧ (skyPixel 100 0 100).a = 1) :=
  ⟨by norm_num,
   (sky_gradient_rows 100 (by norm_num)).2.1 0 0 (by norm_num) (by norm_num),
   (sky_gradient_rows 100 (by norm_num)).2.2 0 100 (by norm_num) (by norm_num)⟩

/-! ## C4: skyline generation coverage -/

/-- Unfold one iteration of the building loop (running case). -/
lemma genFrom_pos {w : ℚ} {rng : Rng} {x : ℚ} {i : Nat} (hx : x < w + 20) :
    genFrom w rng x i =
      (⟨x, bwFor (chooseBType (rng i)) (rng (i + 1)),
         bhFor (chooseBType (rng i)) (rng (i + 2)), chooseBType (rng i)⟩ ::
        (genFrom w rng
          (x + bwFor (chooseBType (rng i)) (rng (i + 1)) * uniform 0.5 1.1 (rng (i + 3)))
          (i + 4)).1,
       (genFrom w rng
          (x + bwFor (chooseBType (rng i)) (rng (i + 1)) * uniform 0.5 1.1 (rng (i + 3)))
          (i + 4)).2) := by
  rw [genFrom]
  simp [hx]

/-- Unfold one iteration of the building loop (stopped case). -/
lemma genFrom_neg {w : ℚ} {rng : Rng} {x : ℚ} {i : Nat} (hx : ¬ x < w + 20) :
    genFrom w rng x i = ([], x, i) := by
  rw [genFrom]
  simp [hx]

/-- `Covers x0 l xfin`: starting at cursor `x0`, the buildings of `l` sit at
consecutive cursor positions — each building starts exactly where the cursor
is, has width in `[18, 110]`, and advances the cursor by a step between
`width × 0.5` and `width × 1.1` — and the cursor ends at `xfin`. -/
def Covers : ℚ → List Building → ℚ → Prop
  | x0, [], xfin => xfin = x0
  | x0, b :: rest, xfin =>
    b.x = x0 ∧ 18 ≤ b.bw ∧ b.bw ≤ 110 ∧
    ∃ step, b.bw * (1 / 2) ≤ step ∧ step ≤ b.bw * (11 / 10) ∧ Covers (x0 + step) rest xfin

/-- Main loop invariant: from any cursor the generated list covers the span
from that cursor to the final cursor, which has passed `w + 20`. -/
lemma genFrom_covers (w : ℚ) (rng : Rng) :
    ∀ (n : Nat) (x : ℚ) (i : Nat), (⌈w + 20 - x⌉).toNat ≤ n →
      Covers x (genFrom w rng x i).1 (genFrom w rng x i).2.1 ∧
      w + 20 ≤ (genFrom w rng x i).2.1 := by
  intro n
  induction n with
  | zero =>
    intro x i hn
    have hx : ¬ x < w + 20 := by
      intro hc
      have h2 : (0 : ℤ) < ⌈w + 20 - x⌉ := Int.ceil_pos.mpr (by linarith)
      omega
    rw [genFrom_neg hx]
    push_neg at hx
    exact ⟨rfl, hx⟩
  | succ n ih =>
    intro x i hn
    by_cases hx : x < w + 20
    · rw [genFrom_pos hx]
      have hbw1 : 18 ≤ bwFor (chooseBType (rng i)) (rng (i + 1)) := bwFor_ge _ _
      have hbw2 : bwFor (chooseBType (rng i)) (rng (i + 1)) ≤ 110 := bwFor_le _ _
      have hf1 : (0.5 : ℚ) ≤ uniform 0.5 1.1 (rng (i + 3)) :=
        @le_uniform 0.5 1.1 (by norm_num) (rng (i + 3))
      have hf2 : uniform 0.5 1.1 (rng (i + 3)) ≤ 1.1 :=
        @uniform_le 0.5 1.1 (by norm_num) (rng (i + 3))
      have hmeas : (⌈w + 20 -
          (x + bwFor (chooseBType (rng i)) (rng (i + 1)) * uniform 0.5 1.1 (rng (i + 3)))⌉).toNat
            ≤ n := by
        have hlt := ceil_step_lt hx (advance_ge (chooseBType (rng i)) (rng (i + 1)) (rng (i + 3)))
        omega
      obtain ⟨hcov, hfin⟩ := ih _ (i + 4) hmeas
      refine ⟨?_, hfin⟩
      refine ⟨rfl, hbw1, hbw2,
        bwFor (chooseBType (rng i)) (rng (i + 1)) * uniform 0.5 1.1 (rng (i + 3)),
        ?_, ?_, hcov⟩
      · nlinarith
      · nlinarith
    · rw [genFrom_neg hx]
      push_neg at hx
      exact ⟨rfl, hx⟩

/-- From `Covers`: consecutive building start positions differ by at least 9
and by at most that building's width × 1.1. -/
lemma covers_gaps : ∀ (l : List Building) (x0 xfin : ℚ), Covers x0 l xfin →
    ∀ k, k + 1 < l.length →
      (l.getD (k + 1) default).x - (l.getD k default).x ≤
        (l.getD k default).bw * (11 / 10) ∧
      9 ≤ (l.getD (k + 1) default).x - (l.getD k default).x := by
  intro l
  induction l with
  | nil =>
    intro x0 xfin hcov k hk
    simp at hk
  | cons b tl ih =>
    intro x0 xfin hcov k hk
    simp only [Covers] at hcov
    obtain ⟨hbx, hbw1, hbw2, step, hs1, hs2, hcov2⟩ := hcov
    cases k with
    | zero =>
      cases tl with
      | nil => simp at hk
      | cons b2 tl2 =>
        simp only [Covers] at hcov2
        obtain ⟨hb2x, -⟩ := hcov2
        simp only [List.getD_cons_zero, List.getD_cons_succ]
        rw [hb2x, hbx]
        constructor
        · linarith
        · linarith
    | succ k2 =>
      have hk2 : k2 + 1 < tl.length := by
        simp only [List.length_cons] at hk
        omega
      have := ih (x0 + step) xfin hcov2 k2 hk2
      simpa [List.getD_cons_succ] using this

/-- From `Covers`: the final cursor lies within `width × 1.1` past the last
building's start. -/
lemma covers_last : ∀ (l : List Building) (x0 xfin : ℚ), Covers x0 l xfin → l ≠ [] →
    ∃ b, l.getLast? = some b ∧ xfin - b.x ≤ b.bw * (11 / 10) ∧ 9 ≤ xfin - b.x := by
  intro l
  induction l with
  | nil =>
    intro _ _ _ hne
    exact absurd rfl hne
  | cons b tl ih =>
    intro x0 xfin hcov hne
    simp only [Covers] at hcov
    obtain ⟨hbx, hbw1, hbw2, step, hs1, hs2, hcov2⟩ := hcov
    cases tl with
    | nil =>
      simp only [Covers] at hcov2
      refine ⟨b, rfl, ?_, ?_⟩
      · rw [hcov2, hbx]
        linarith
      · rw [hcov2, hbx]
        linarith
    | cons b2 tl2 =>
      obtain ⟨bl, hbl, h1, h2⟩ := ih (x0 + step) xfin hcov2 (by simp)
      refine ⟨bl, ?_, h1, h2⟩
      rw [List.getLast?_cons_cons]
      exact hbl

/-- C4: for every stream and non-negative width, the generator yields a
non-empty building sequence: the first building starts at the left margin
`-20`; the cursor advances each step by that building's width times a factor
in `[0.5, 1.1]` until it passes `W + 20`; consecutive starts differ by at
most `width × 1.1` (and at least 9), and the last building's start is within
its own `width × 1.1` of the right margin — the spans cover `[-20, W + 20]`
contiguously. -/
theorem skyline_coverage (w : ℚ) (rng : Rng) (i : Nat) (hw : 0 ≤ w) :
    (genBuildings w rng i).1 ≠ [] ∧
    ((genBuildings w rng i).1.getD 0 default).x = -20 ∧
    Covers (-20) (genBuildings w rng i).1 (genBuildings w rng i).2.1 ∧
    w + 20 ≤ (genBuildings w rng i).2.1 ∧
    (∀ k, k + 1 < (genBuildings w rng i).1.length →
      ((genBuildings w rng i).1.getD (k + 1) default).x -
          ((genBuildings w rng i).1.getD k default).x ≤
        ((genBuildings w rng i).1.getD k default).bw * (11 / 10) ∧
      9 ≤ ((genBuildings w rng i).1.getD (k + 1) default).x -
          ((genBuildings w rng i).1.getD k default).x) ∧
    (∃ b, (genBuildings w rng i).1.getLast? = some b ∧
      w + 20 - b.x ≤ b.bw * (11 / 10)) := by
  simp only [genBuildings]
  obtain ⟨hcov, hfin⟩ :=
    genFrom_covers w rng ((⌈w + 20 - (-20 : ℚ)⌉).toNat) (-20) i le_rfl
  have hne : (genFrom w rng (-20) i).1 ≠ [] := by
    intro hnil
    rw [hnil] at hcov
    simp only [Covers] at hcov
    rw [hcov] at hfin
    linarith
  have hhead : ((genFrom w rng (-20) i).1.getD 0 default).x = -20 := by
    cases hl : (genFrom w rng (-20) i).1 with
    | nil => exact absurd hl hne
    | cons b tl =>
      rw [hl] at hcov
      simp only [Covers] at hcov
      simp [hcov.1]
  obtain ⟨bl, hbl, hgap, hnine⟩ := covers_last _ _ _ hcov hne
  exact ⟨hne, hhead, hcov, hfin, covers_gaps _ _ _ hcov, bl, hbl, by linarith⟩

/-- Witness for C4 at the spec's scenario: a 200-wide canvas, the reference
stream, and the stream position after the 24 sun-ray draws. -/
theorem skyline_coverage_witness :
    (0 : ℚ) ≤ 200 ∧
    (genBuildings 200 (seededRng 42) 24).1 ≠ [] ∧
    ((genBuildings 200 (seededRng 42) 24).1.getD 0 default).x = -20 ∧
    Covers (-20) (genBuildings 200 (seededRng 42) 24).1
      (genBuildings 200 (seededRng 42) 24).2.1 ∧
    (200 : ℚ) + 20 ≤ (genBuildings 200 (seededRng 42) 24).2.1 :=
  ⟨by norm_num,
   (skyline_coverage 200 (seededRng 42) 24 (by norm_num)).1,
   (skyline_coverage 200 (seededRng 42) 24 (by norm_num)).2.1,
   (skyline_coverage 200 (seededRng 42) 24 (by norm_num)).2.2.1,
   (skyline_coverage 200 (seededRng 42) 24 (by norm_num)).2.2.2.1⟩

end Solarpunk
